import Mathlib

/-!
# Users CRUD backend: id assignment, validation and request handlers

A shallow embedding of `src/src/models/Users.js`, `src/src/routes/UserRoutes.js`
and the two terminal handlers of `src/src/index.js`.

* Dates are the local calendar components that the `Date` getters return; the
  current date is a parameter of every function that reads the clock.
* The database is a list of user documents plus the singleton counter document.
* Each request handler is a pure function from the store (and the request) to
  the new store and the response; requests run one after the other.
* Body values are strings, `null` or absent; the timestamps of the schema are
  left out.
-/

namespace UsersApi

/-! ## Dates -/

/-- Calendar components of a JavaScript `Date` in local time: what
`getFullYear()`, `getMonth()` (0 to 11) and `getDate()` (1 to 31) return. -/
structure JsDate where
  year : Int
  month : Nat
  date : Nat
  deriving DecidableEq, Repr

/-- Gregorian leap year rule. -/
def isLeapYear (y : Int) : Bool :=
  (y % 4 == 0 && y % 100 != 0) || y % 400 == 0

/-- Number of days of month `m` (0 = January) of year `y`. -/
def daysInMonth (y : Int) (m : Nat) : Nat :=
  match m with
  | 1 => if isLeapYear y then 29 else 28
  | 3 => 30
  | 5 => 30
  | 8 => 30
  | 10 => 30
  | _ => 31

/-- Day number of a calendar date counted from 1970-01-01 (day 0), in the
proleptic Gregorian calendar that `Date` uses; the month is 0-based. -/
def dayNumber (y : Int) (m : Nat) (d : Nat) : Int :=
  let y1 : Int := if m < 2 then y - 1 else y
  let era : Int := y1 / 400
  let yoe : Int := y1 - era * 400
  let mp : Int := if m < 2 then (m : Int) + 10 else (m : Int) - 2
  let doy : Int := (153 * mp + 2) / 5 + (d : Int) - 1
  let doe : Int := yoe * 365 + yoe / 4 - yoe / 100 + doy
  era * 146097 + doe - 719468

/-- The runtime's `getFullYear()`. -/
def JsDate.getFullYear (t : JsDate) : Int := t.year

/-- The runtime's `getMonth()`, 0 for January. -/
def JsDate.getMonth (t : JsDate) : Int := (t.month : Int)

/-- The runtime's `getDate()`, the day of the month. -/
def JsDate.getDate (t : JsDate) : Int := (t.date : Int)

/-- The runtime's `getDay()`, the day of the WEEK, 0 for Sunday:
`WeekDay(t) = (Day(t) + 4) modulo 7`. -/
def JsDate.getDay (t : JsDate) : Int :=
  (dayNumber t.year t.month t.date + 4) % 7

/-- A date that exists in the calendar. -/
def JsDate.valid (t : JsDate) : Bool :=
  decide (t.month < 12) && decide (1 ≤ t.date) && decide (t.date ≤ daysInMonth t.year t.month)

/-- The calendar date one day after `t`. -/
def JsDate.dayAfter (t : JsDate) : JsDate :=
  if t.date < daysInMonth t.year t.month then { t with date := t.date + 1 }
  else if t.month < 11 then { t with month := t.month + 1, date := 1 }
  else { year := t.year + 1, month := 0, date := 1 }

/-- `isAdult` of `models/Users.js`, with `new Date()` passed in as `today`. -/
def isAdult (today : JsDate) (dateOfBirth : JsDate) : Bool :=
  let birthDate := dateOfBirth
  let age : Int := today.getFullYear - birthDate.getFullYear
  let monthDiff : Int := today.getMonth - birthDate.getMonth
  let age : Int :=
    if monthDiff < 0 || (monthDiff == 0 && decide (today.getDate < birthDate.getDate)) then age - 1
    else age
  decide (age ≥ 18)

/-- `calculateAge` of `routes/UserRoutes.js`, with `new Date()` passed in as
`today`. The source compares `getDay()`, the day of the week. -/
def calculateAge (today : JsDate) (dob : JsDate) : Int :=
  let birth := dob
  let age : Int := today.getFullYear - birth.getFullYear
  let m : Int := today.getMonth - birth.getMonth
  if m < 0 || (m == 0 && decide (today.getDay < birth.getDay)) then age - 1 else age

/-- The calendar age in the words of the specification: the year difference,
less one exactly when the current (month, day of month) is earlier than the
birth (month, day of month). -/
def calendarAge (today : JsDate) (dob : JsDate) : Int :=
  if today.month < dob.month ∨ (today.month = dob.month ∧ today.date < dob.date)
  then today.year - dob.year - 1
  else today.year - dob.year

/-! ## Strings -/

/-- White space and line terminators of the runtime: what `trim()` strips and
what `\s` matches (so `\S` is its complement). -/
def isJsWhitespace (c : Char) : Bool :=
  let n := c.toNat
  n == 9 || n == 10 || n == 11 || n == 12 || n == 13 || n == 32 || n == 160 ||
  n == 0x1680 || (decide (0x2000 ≤ n) && decide (n ≤ 0x200a)) || n == 0x2028 ||
  n == 0x2029 || n == 0x202f || n == 0x205f || n == 0x3000 || n == 0xfeff

/-- Characters of `trim()`: leading and trailing white space removed. -/
def trimChars (cs : List Char) : List Char :=
  ((cs.dropWhile isJsWhitespace).reverse.dropWhile isJsWhitespace).reverse

/-- The runtime's `String.prototype.trim`. -/
def jsTrim (s : String) : String := ⟨trimChars s.data⟩

/-- The runtime's `length`: UTF-16 code units, two for a code point above the
basic plane. -/
def jsLength (s : String) : Nat :=
  (s.data.map fun c => if c.toNat < 0x10000 then 1 else 2).sum

/-! ### Letter case of the runtime

`String.prototype.toLowerCase` follows the Unicode default case conversion: the
lowercase mapping of every code point, the two code points of U+0130, and the
final form of the capital sigma at the end of a word. The tables are those of
Unicode 14.0. -/

/-- Lowercase mappings outside ASCII. An entry `(first, last, step, image)` maps
the code points `first`, `first + step`, ... up to `last`: the code point `n` of
them goes to `image + (n - first)`. -/
def lowerRanges : List (Nat × Nat × Nat × Nat) :=
  [(0xC0, 0xD6, 1, 0xE0), (0xD8, 0xDE, 1, 0xF8), (0x100, 0x12E, 2, 0x101),
   (0x132, 0x136, 2, 0x133), (0x139, 0x147, 2, 0x13A), (0x14A, 0x176, 2, 0x14B),
   (0x178, 0x178, 1, 0xFF), (0x179, 0x17D, 2, 0x17A), (0x181, 0x181, 1, 0x253),
   (0x182, 0x184, 2, 0x183), (0x186, 0x186, 1, 0x254), (0x187, 0x187, 1, 0x188),
   (0x189, 0x18A, 1, 0x256), (0x18B, 0x18B, 1, 0x18C), (0x18E, 0x18E, 1, 0x1DD),
   (0x18F, 0x18F, 1, 0x259), (0x190, 0x190, 1, 0x25B), (0x191, 0x191, 1, 0x192),
   (0x193, 0x193, 1, 0x260), (0x194, 0x194, 1, 0x263), (0x196, 0x196, 1, 0x269),
   (0x197, 0x197, 1, 0x268), (0x198, 0x198, 1, 0x199), (0x19C, 0x19C, 1, 0x26F),
   (0x19D, 0x19D, 1, 0x272), (0x19F, 0x19F, 1, 0x275), (0x1A0, 0x1A4, 2, 0x1A1),
   (0x1A6, 0x1A6, 1, 0x280), (0x1A7, 0x1A7, 1, 0x1A8), (0x1A9, 0x1A9, 1, 0x283),
   (0x1AC, 0x1AC, 1, 0x1AD), (0x1AE, 0x1AE, 1, 0x288), (0x1AF, 0x1AF, 1, 0x1B0),
   (0x1B1, 0x1B2, 1, 0x28A), (0x1B3, 0x1B5, 2, 0x1B4), (0x1B7, 0x1B7, 1, 0x292),
   (0x1B8, 0x1B8, 1, 0x1B9), (0x1BC, 0x1BC, 1, 0x1BD), (0x1C4, 0x1C4, 1, 0x1C6),
   (0x1C5, 0x1C5, 1, 0x1C6), (0x1C7, 0x1C7, 1, 0x1C9), (0x1C8, 0x1C8, 1, 0x1C9),
   (0x1CA, 0x1CA, 1, 0x1CC), (0x1CB, 0x1DB, 2, 0x1CC), (0x1DE, 0x1EE, 2, 0x1DF),
   (0x1F1, 0x1F1, 1, 0x1F3), (0x1F2, 0x1F4, 2, 0x1F3), (0x1F6, 0x1F6, 1, 0x195),
   (0x1F7, 0x1F7, 1, 0x1BF), (0x1F8, 0x21E, 2, 0x1F9), (0x220, 0x220, 1, 0x19E),
   (0x222, 0x232, 2, 0x223), (0x23A, 0x23A, 1, 0x2C65), (0x23B, 0x23B, 1, 0x23C),
   (0x23D, 0x23D, 1, 0x19A), (0x23E, 0x23E, 1, 0x2C66), (0x241, 0x241, 1, 0x242),
   (0x243, 0x243, 1, 0x180), (0x244, 0x244, 1, 0x289), (0x245, 0x245, 1, 0x28C),
   (0x246, 0x24E, 2, 0x247), (0x370, 0x372, 2, 0x371), (0x376, 0x376, 1, 0x377),
   (0x37F, 0x37F, 1, 0x3F3), (0x386, 0x386, 1, 0x3AC), (0x388, 0x38A, 1, 0x3AD),
   (0x38C, 0x38C, 1, 0x3CC), (0x38E, 0x38F, 1, 0x3CD), (0x391, 0x3A1, 1, 0x3B1),
   (0x3A3, 0x3AB, 1, 0x3C3), (0x3CF, 0x3CF, 1, 0x3D7), (0x3D8, 0x3EE, 2, 0x3D9),
   (0x3F4, 0x3F4, 1, 0x3B8), (0x3F7, 0x3F7, 1, 0x3F8), (0x3F9, 0x3F9, 1, 0x3F2),
   (0x3FA, 0x3FA, 1, 0x3FB), (0x3FD, 0x3FF, 1, 0x37B), (0x400, 0x40F, 1, 0x450),
   (0x410, 0x42F, 1, 0x430), (0x460, 0x480, 2, 0x461), (0x48A, 0x4BE, 2, 0x48B),
   (0x4C0, 0x4C0, 1, 0x4CF), (0x4C1, 0x4CD, 2, 0x4C2), (0x4D0, 0x52E, 2, 0x4D1),
   (0x531, 0x556, 1, 0x561), (0x10A0, 0x10C5, 1, 0x2D00), (0x10C7, 0x10C7, 1, 0x2D27),
   (0x10CD, 0x10CD, 1, 0x2D2D), (0x13A0, 0x13EF, 1, 0xAB70), (0x13F0, 0x13F5, 1, 0x13F8),
   (0x1C90, 0x1CBA, 1, 0x10D0), (0x1CBD, 0x1CBF, 1, 0x10FD), (0x1E00, 0x1E94, 2, 0x1E01),
   (0x1E9E, 0x1E9E, 1, 0xDF), (0x1EA0, 0x1EFE, 2, 0x1EA1), (0x1F08, 0x1F0F, 1, 0x1F00),
   (0x1F18, 0x1F1D, 1, 0x1F10), (0x1F28, 0x1F2F, 1, 0x1F20), (0x1F38, 0x1F3F, 1, 0x1F30),
   (0x1F48, 0x1F4D, 1, 0x1F40), (0x1F59, 0x1F5F, 2, 0x1F51), (0x1F68, 0x1F6F, 1, 0x1F60),
   (0x1F88, 0x1F8F, 1, 0x1F80), (0x1F98, 0x1F9F, 1, 0x1F90), (0x1FA8, 0x1FAF, 1, 0x1FA0),
   (0x1FB8, 0x1FB9, 1, 0x1FB0), (0x1FBA, 0x1FBB, 1, 0x1F70), (0x1FBC, 0x1FBC, 1, 0x1FB3),
   (0x1FC8, 0x1FCB, 1, 0x1F72), (0x1FCC, 0x1FCC, 1, 0x1FC3), (0x1FD8, 0x1FD9, 1, 0x1FD0),
   (0x1FDA, 0x1FDB, 1, 0x1F76), (0x1FE8, 0x1FE9, 1, 0x1FE0), (0x1FEA, 0x1FEB, 1, 0x1F7A),
   (0x1FEC, 0x1FEC, 1, 0x1FE5), (0x1FF8, 0x1FF9, 1, 0x1F78), (0x1FFA, 0x1FFB, 1, 0x1F7C),
   (0x1FFC, 0x1FFC, 1, 0x1FF3), (0x2126, 0x2126, 1, 0x3C9), (0x212A, 0x212A, 1, 0x6B),
   (0x212B, 0x212B, 1, 0xE5), (0x2132, 0x2132, 1, 0x214E), (0x2160, 0x216F, 1, 0x2170),
   (0x2183, 0x2183, 1, 0x2184), (0x24B6, 0x24CF, 1, 0x24D0), (0x2C00, 0x2C2F, 1, 0x2C30),
   (0x2C60, 0x2C60, 1, 0x2C61), (0x2C62, 0x2C62, 1, 0x26B), (0x2C63, 0x2C63, 1, 0x1D7D),
   (0x2C64, 0x2C64, 1, 0x27D), (0x2C67, 0x2C6B, 2, 0x2C68), (0x2C6D, 0x2C6D, 1, 0x251),
   (0x2C6E, 0x2C6E, 1, 0x271), (0x2C6F, 0x2C6F, 1, 0x250), (0x2C70, 0x2C70, 1, 0x252),
   (0x2C72, 0x2C72, 1, 0x2C73), (0x2C75, 0x2C75, 1, 0x2C76), (0x2C7E, 0x2C7F, 1, 0x23F),
   (0x2C80, 0x2CE2, 2, 0x2C81), (0x2CEB, 0x2CED, 2, 0x2CEC), (0x2CF2, 0x2CF2, 1, 0x2CF3),
   (0xA640, 0xA66C, 2, 0xA641), (0xA680, 0xA69A, 2, 0xA681), (0xA722, 0xA72E, 2, 0xA723),
   (0xA732, 0xA76E, 2, 0xA733), (0xA779, 0xA77B, 2, 0xA77A), (0xA77D, 0xA77D, 1, 0x1D79),
   (0xA77E, 0xA786, 2, 0xA77F), (0xA78B, 0xA78B, 1, 0xA78C), (0xA78D, 0xA78D, 1, 0x265),
   (0xA790, 0xA792, 2, 0xA791), (0xA796, 0xA7A8, 2, 0xA797), (0xA7AA, 0xA7AA, 1, 0x266),
   (0xA7AB, 0xA7AB, 1, 0x25C), (0xA7AC, 0xA7AC, 1, 0x261), (0xA7AD, 0xA7AD, 1, 0x26C),
   (0xA7AE, 0xA7AE, 1, 0x26A), (0xA7B0, 0xA7B0, 1, 0x29E), (0xA7B1, 0xA7B1, 1, 0x287),
   (0xA7B2, 0xA7B2, 1, 0x29D), (0xA7B3, 0xA7B3, 1, 0xAB53), (0xA7B4, 0xA7C2, 2, 0xA7B5),
   (0xA7C4, 0xA7C4, 1, 0xA794), (0xA7C5, 0xA7C5, 1, 0x282), (0xA7C6, 0xA7C6, 1, 0x1D8E),
   (0xA7C7, 0xA7C9, 2, 0xA7C8), (0xA7D0, 0xA7D0, 1, 0xA7D1), (0xA7D6, 0xA7D8, 2, 0xA7D7),
   (0xA7F5, 0xA7F5, 1, 0xA7F6), (0xFF21, 0xFF3A, 1, 0xFF41), (0x10400, 0x10427, 1, 0x10428),
   (0x104B0, 0x104D3, 1, 0x104D8), (0x10570, 0x1057A, 1, 0x10597), (0x1057C, 0x1058A, 1, 0x105A3),
   (0x1058C, 0x10592, 1, 0x105B3), (0x10594, 0x10595, 1, 0x105BB), (0x10C80, 0x10CB2, 1, 0x10CC0),
   (0x118A0, 0x118BF, 1, 0x118C0), (0x16E40, 0x16E5F, 1, 0x16E60), (0x1E900, 0x1E921, 1, 0x1E922)]

/-- Code points with the property Case_Ignorable, as ranges `(first, last)`. -/
def caseIgnorableRanges : List (Nat × Nat) :=
  [(0x27, 0x27), (0x2E, 0x2E), (0x3A, 0x3A), (0x5E, 0x5E), (0x60, 0x60), (0xA8, 0xA8),
   (0xAD, 0xAD), (0xAF, 0xAF), (0xB4, 0xB4), (0xB7, 0xB8), (0x2B0, 0x36F), (0x374, 0x375),
   (0x37A, 0x37A), (0x384, 0x385), (0x387, 0x387), (0x483, 0x489), (0x559, 0x559), (0x55F, 0x55F),
   (0x591, 0x5BD), (0x5BF, 0x5BF), (0x5C1, 0x5C2), (0x5C4, 0x5C5), (0x5C7, 0x5C7), (0x5F4, 0x5F4),
   (0x600, 0x605), (0x610, 0x61A), (0x61C, 0x61C), (0x640, 0x640), (0x64B, 0x65F), (0x670, 0x670),
   (0x6D6, 0x6DD), (0x6DF, 0x6E8), (0x6EA, 0x6ED), (0x70F, 0x70F), (0x711, 0x711), (0x730, 0x74A),
   (0x7A6, 0x7B0), (0x7EB, 0x7F5), (0x7FA, 0x7FA), (0x7FD, 0x7FD), (0x816, 0x82D), (0x859, 0x85B),
   (0x888, 0x888), (0x890, 0x891), (0x898, 0x89F), (0x8C9, 0x902), (0x93A, 0x93A), (0x93C, 0x93C),
   (0x941, 0x948), (0x94D, 0x94D), (0x951, 0x957), (0x962, 0x963), (0x971, 0x971), (0x981, 0x981),
   (0x9BC, 0x9BC), (0x9C1, 0x9C4), (0x9CD, 0x9CD), (0x9E2, 0x9E3), (0x9FE, 0x9FE), (0xA01, 0xA02),
   (0xA3C, 0xA3C), (0xA41, 0xA42), (0xA47, 0xA48), (0xA4B, 0xA4D), (0xA51, 0xA51), (0xA70, 0xA71),
   (0xA75, 0xA75), (0xA81, 0xA82), (0xABC, 0xABC), (0xAC1, 0xAC5), (0xAC7, 0xAC8), (0xACD, 0xACD),
   (0xAE2, 0xAE3), (0xAFA, 0xAFF), (0xB01, 0xB01), (0xB3C, 0xB3C), (0xB3F, 0xB3F), (0xB41, 0xB44),
   (0xB4D, 0xB4D), (0xB55, 0xB56), (0xB62, 0xB63), (0xB82, 0xB82), (0xBC0, 0xBC0), (0xBCD, 0xBCD),
   (0xC00, 0xC00), (0xC04, 0xC04), (0xC3C, 0xC3C), (0xC3E, 0xC40), (0xC46, 0xC48), (0xC4A, 0xC4D),
   (0xC55, 0xC56), (0xC62, 0xC63), (0xC81, 0xC81), (0xCBC, 0xCBC), (0xCBF, 0xCBF), (0xCC6, 0xCC6),
   (0xCCC, 0xCCD), (0xCE2, 0xCE3), (0xD00, 0xD01), (0xD3B, 0xD3C), (0xD41, 0xD44), (0xD4D, 0xD4D),
   (0xD62, 0xD63), (0xD81, 0xD81), (0xDCA, 0xDCA), (0xDD2, 0xDD4), (0xDD6, 0xDD6), (0xE31, 0xE31),
   (0xE34, 0xE3A), (0xE46, 0xE4E), (0xEB1, 0xEB1), (0xEB4, 0xEBC), (0xEC6, 0xEC6), (0xEC8, 0xECD),
   (0xF18, 0xF19), (0xF35, 0xF35), (0xF37, 0xF37), (0xF39, 0xF39), (0xF71, 0xF7E), (0xF80, 0xF84),
   (0xF86, 0xF87), (0xF8D, 0xF97), (0xF99, 0xFBC), (0xFC6, 0xFC6), (0x102D, 0x1030),
   (0x1032, 0x1037), (0x1039, 0x103A), (0x103D, 0x103E), (0x1058, 0x1059), (0x105E, 0x1060),
   (0x1071, 0x1074), (0x1082, 0x1082), (0x1085, 0x1086), (0x108D, 0x108D), (0x109D, 0x109D),
   (0x10FC, 0x10FC), (0x135D, 0x135F), (0x1712, 0x1714), (0x1732, 0x1733), (0x1752, 0x1753),
   (0x1772, 0x1773), (0x17B4, 0x17B5), (0x17B7, 0x17BD), (0x17C6, 0x17C6), (0x17C9, 0x17D3),
   (0x17D7, 0x17D7), (0x17DD, 0x17DD), (0x180B, 0x180F), (0x1843, 0x1843), (0x1885, 0x1886),
   (0x18A9, 0x18A9), (0x1920, 0x1922), (0x1927, 0x1928), (0x1932, 0x1932), (0x1939, 0x193B),
   (0x1A17, 0x1A18), (0x1A1B, 0x1A1B), (0x1A56, 0x1A56), (0x1A58, 0x1A5E), (0x1A60, 0x1A60),
   (0x1A62, 0x1A62), (0x1A65, 0x1A6C), (0x1A73, 0x1A7C), (0x1A7F, 0x1A7F), (0x1AA7, 0x1AA7),
   (0x1AB0, 0x1ACE), (0x1B00, 0x1B03), (0x1B34, 0x1B34), (0x1B36, 0x1B3A), (0x1B3C, 0x1B3C),
   (0x1B42, 0x1B42), (0x1B6B, 0x1B73), (0x1B80, 0x1B81), (0x1BA2, 0x1BA5), (0x1BA8, 0x1BA9),
   (0x1BAB, 0x1BAD), (0x1BE6, 0x1BE6), (0x1BE8, 0x1BE9), (0x1BED, 0x1BED), (0x1BEF, 0x1BF1),
   (0x1C2C, 0x1C33), (0x1C36, 0x1C37), (0x1C78, 0x1C7D), (0x1CD0, 0x1CD2), (0x1CD4, 0x1CE0),
   (0x1CE2, 0x1CE8), (0x1CED, 0x1CED), (0x1CF4, 0x1CF4), (0x1CF8, 0x1CF9), (0x1D2C, 0x1D6A),
   (0x1D78, 0x1D78), (0x1D9B, 0x1DFF), (0x1FBD, 0x1FBD), (0x1FBF, 0x1FC1), (0x1FCD, 0x1FCF),
   (0x1FDD, 0x1FDF), (0x1FED, 0x1FEF), (0x1FFD, 0x1FFE), (0x200B, 0x200F), (0x2018, 0x2019),
   (0x2024, 0x2024), (0x2027, 0x2027), (0x202A, 0x202E), (0x2060, 0x2064), (0x2066, 0x206F),
   (0x2071, 0x2071), (0x207F, 0x207F), (0x2090, 0x209C), (0x20D0, 0x20F0), (0x2C7C, 0x2C7D),
   (0x2CEF, 0x2CF1), (0x2D6F, 0x2D6F), (0x2D7F, 0x2D7F), (0x2DE0, 0x2DFF), (0x2E2F, 0x2E2F),
   (0x3005, 0x3005), (0x302A, 0x302D), (0x3031, 0x3035), (0x303B, 0x303B), (0x3099, 0x309E),
   (0x30FC, 0x30FE), (0xA015, 0xA015), (0xA4F8, 0xA4FD), (0xA60C, 0xA60C), (0xA66F, 0xA672),
   (0xA674, 0xA67D), (0xA67F, 0xA67F), (0xA69C, 0xA69F), (0xA6F0, 0xA6F1), (0xA700, 0xA721),
   (0xA770, 0xA770), (0xA788, 0xA78A), (0xA7F2, 0xA7F4), (0xA7F8, 0xA7F9), (0xA802, 0xA802),
   (0xA806, 0xA806), (0xA80B, 0xA80B), (0xA825, 0xA826), (0xA82C, 0xA82C), (0xA8C4, 0xA8C5),
   (0xA8E0, 0xA8F1), (0xA8FF, 0xA8FF), (0xA926, 0xA92D), (0xA947, 0xA951), (0xA980, 0xA982),
   (0xA9B3, 0xA9B3), (0xA9B6, 0xA9B9), (0xA9BC, 0xA9BD), (0xA9CF, 0xA9CF), (0xA9E5, 0xA9E6),
   (0xAA29, 0xAA2E), (0xAA31, 0xAA32), (0xAA35, 0xAA36), (0xAA43, 0xAA43), (0xAA4C, 0xAA4C),
   (0xAA70, 0xAA70), (0xAA7C, 0xAA7C), (0xAAB0, 0xAAB0), (0xAAB2, 0xAAB4), (0xAAB7, 0xAAB8),
   (0xAABE, 0xAABF), (0xAAC1, 0xAAC1), (0xAADD, 0xAADD), (0xAAEC, 0xAAED), (0xAAF3, 0xAAF4),
   (0xAAF6, 0xAAF6), (0xAB5B, 0xAB5F), (0xAB69, 0xAB6B), (0xABE5, 0xABE5), (0xABE8, 0xABE8),
   (0xABED, 0xABED), (0xFB1E, 0xFB1E), (0xFBB2, 0xFBC2), (0xFE00, 0xFE0F), (0xFE13, 0xFE13),
   (0xFE20, 0xFE2F), (0xFE52, 0xFE52), (0xFE55, 0xFE55), (0xFEFF, 0xFEFF), (0xFF07, 0xFF07),
   (0xFF0E, 0xFF0E), (0xFF1A, 0xFF1A), (0xFF3E, 0xFF3E), (0xFF40, 0xFF40), (0xFF70, 0xFF70),
   (0xFF9E, 0xFF9F), (0xFFE3, 0xFFE3), (0xFFF9, 0xFFFB), (0x101FD, 0x101FD), (0x102E0, 0x102E0),
   (0x10376, 0x1037A), (0x10780, 0x10785), (0x10787, 0x107B0), (0x107B2, 0x107BA),
   (0x10A01, 0x10A03), (0x10A05, 0x10A06), (0x10A0C, 0x10A0F), (0x10A38, 0x10A3A),
   (0x10A3F, 0x10A3F), (0x10AE5, 0x10AE6), (0x10D24, 0x10D27), (0x10EAB, 0x10EAC),
   (0x10F46, 0x10F50), (0x10F82, 0x10F85), (0x11001, 0x11001), (0x11038, 0x11046),
   (0x11070, 0x11070), (0x11073, 0x11074), (0x1107F, 0x11081), (0x110B3, 0x110B6),
   (0x110B9, 0x110BA), (0x110BD, 0x110BD), (0x110C2, 0x110C2), (0x110CD, 0x110CD),
   (0x11100, 0x11102), (0x11127, 0x1112B), (0x1112D, 0x11134), (0x11173, 0x11173),
   (0x11180, 0x11181), (0x111B6, 0x111BE), (0x111C9, 0x111CC), (0x111CF, 0x111CF),
   (0x1122F, 0x11231), (0x11234, 0x11234), (0x11236, 0x11237), (0x1123E, 0x1123E),
   (0x112DF, 0x112DF), (0x112E3, 0x112EA), (0x11300, 0x11301), (0x1133B, 0x1133C),
   (0x11340, 0x11340), (0x11366, 0x1136C), (0x11370, 0x11374), (0x11438, 0x1143F),
   (0x11442, 0x11444), (0x11446, 0x11446), (0x1145E, 0x1145E), (0x114B3, 0x114B8),
   (0x114BA, 0x114BA), (0x114BF, 0x114C0), (0x114C2, 0x114C3), (0x115B2, 0x115B5),
   (0x115BC, 0x115BD), (0x115BF, 0x115C0), (0x115DC, 0x115DD), (0x11633, 0x1163A),
   (0x1163D, 0x1163D), (0x1163F, 0x11640), (0x116AB, 0x116AB), (0x116AD, 0x116AD),
   (0x116B0, 0x116B5), (0x116B7, 0x116B7), (0x1171D, 0x1171F), (0x11722, 0x11725),
   (0x11727, 0x1172B), (0x1182F, 0x11837), (0x11839, 0x1183A), (0x1193B, 0x1193C),
   (0x1193E, 0x1193E), (0x11943, 0x11943), (0x119D4, 0x119D7), (0x119DA, 0x119DB),
   (0x119E0, 0x119E0), (0x11A01, 0x11A0A), (0x11A33, 0x11A38), (0x11A3B, 0x11A3E),
   (0x11A47, 0x11A47), (0x11A51, 0x11A56), (0x11A59, 0x11A5B), (0x11A8A, 0x11A96),
   (0x11A98, 0x11A99), (0x11C30, 0x11C36), (0x11C38, 0x11C3D), (0x11C3F, 0x11C3F),
   (0x11C92, 0x11CA7), (0x11CAA, 0x11CB0), (0x11CB2, 0x11CB3), (0x11CB5, 0x11CB6),
   (0x11D31, 0x11D36), (0x11D3A, 0x11D3A), (0x11D3C, 0x11D3D), (0x11D3F, 0x11D45),
   (0x11D47, 0x11D47), (0x11D90, 0x11D91), (0x11D95, 0x11D95), (0x11D97, 0x11D97),
   (0x11EF3, 0x11EF4), (0x13430, 0x13438), (0x16AF0, 0x16AF4), (0x16B30, 0x16B36),
   (0x16B40, 0x16B43), (0x16F4F, 0x16F4F), (0x16F8F, 0x16F9F), (0x16FE0, 0x16FE1),
   (0x16FE3, 0x16FE4), (0x1AFF0, 0x1AFF3), (0x1AFF5, 0x1AFFB), (0x1AFFD, 0x1AFFE),
   (0x1BC9D, 0x1BC9E), (0x1BCA0, 0x1BCA3), (0x1CF00, 0x1CF2D), (0x1CF30, 0x1CF46),
   (0x1D167, 0x1D169), (0x1D173, 0x1D182), (0x1D185, 0x1D18B), (0x1D1AA, 0x1D1AD),
   (0x1D242, 0x1D244), (0x1DA00, 0x1DA36), (0x1DA3B, 0x1DA6C), (0x1DA75, 0x1DA75),
   (0x1DA84, 0x1DA84), (0x1DA9B, 0x1DA9F), (0x1DAA1, 0x1DAAF), (0x1E000, 0x1E006),
   (0x1E008, 0x1E018), (0x1E01B, 0x1E021), (0x1E023, 0x1E024), (0x1E026, 0x1E02A),
   (0x1E130, 0x1E13D), (0x1E2AE, 0x1E2AE), (0x1E2EC, 0x1E2EF), (0x1E8D0, 0x1E8D6),
   (0x1E944, 0x1E94B), (0x1F3FB, 0x1F3FF), (0xE0001, 0xE0001), (0xE0020, 0xE007F),
   (0xE0100, 0xE01EF)]

/-- Code points with the property Cased that are not Case_Ignorable, as ranges
`(first, last)`. -/
def casedRanges : List (Nat × Nat) :=
  [(0x41, 0x5A), (0x61, 0x7A), (0xAA, 0xAA), (0xB5, 0xB5), (0xBA, 0xBA), (0xC0, 0xD6),
   (0xD8, 0xF6), (0xF8, 0x1BA), (0x1BC, 0x1BF), (0x1C4, 0x293), (0x295, 0x2AF), (0x370, 0x373),
   (0x376, 0x377), (0x37B, 0x37D), (0x37F, 0x37F), (0x386, 0x386), (0x388, 0x38A), (0x38C, 0x38C),
   (0x38E, 0x3A1), (0x3A3, 0x3F5), (0x3F7, 0x481), (0x48A, 0x52F), (0x531, 0x556), (0x560, 0x588),
   (0x10A0, 0x10C5), (0x10C7, 0x10C7), (0x10CD, 0x10CD), (0x10D0, 0x10FA), (0x10FD, 0x10FF),
   (0x13A0, 0x13F5), (0x13F8, 0x13FD), (0x1C80, 0x1C88), (0x1C90, 0x1CBA), (0x1CBD, 0x1CBF),
   (0x1D00, 0x1D2B), (0x1D6B, 0x1D77), (0x1D79, 0x1D9A), (0x1E00, 0x1F15), (0x1F18, 0x1F1D),
   (0x1F20, 0x1F45), (0x1F48, 0x1F4D), (0x1F50, 0x1F57), (0x1F59, 0x1F59), (0x1F5B, 0x1F5B),
   (0x1F5D, 0x1F5D), (0x1F5F, 0x1F7D), (0x1F80, 0x1FB4), (0x1FB6, 0x1FBC), (0x1FBE, 0x1FBE),
   (0x1FC2, 0x1FC4), (0x1FC6, 0x1FCC), (0x1FD0, 0x1FD3), (0x1FD6, 0x1FDB), (0x1FE0, 0x1FEC),
   (0x1FF2, 0x1FF4), (0x1FF6, 0x1FFC), (0x2102, 0x2102), (0x2107, 0x2107), (0x210A, 0x2113),
   (0x2115, 0x2115), (0x2119, 0x211D), (0x2124, 0x2124), (0x2126, 0x2126), (0x2128, 0x2128),
   (0x212A, 0x212D), (0x212F, 0x2134), (0x2139, 0x2139), (0x213C, 0x213F), (0x2145, 0x2149),
   (0x214E, 0x214E), (0x2160, 0x217F), (0x2183, 0x2184), (0x24B6, 0x24E9), (0x2C00, 0x2C7B),
   (0x2C7E, 0x2CE4), (0x2CEB, 0x2CEE), (0x2CF2, 0x2CF3), (0x2D00, 0x2D25), (0x2D27, 0x2D27),
   (0x2D2D, 0x2D2D), (0xA640, 0xA66D), (0xA680, 0xA69B), (0xA722, 0xA76F), (0xA771, 0xA787),
   (0xA78B, 0xA78E), (0xA790, 0xA7CA), (0xA7D0, 0xA7D1), (0xA7D3, 0xA7D3), (0xA7D5, 0xA7D9),
   (0xA7F5, 0xA7F6), (0xA7FA, 0xA7FA), (0xAB30, 0xAB5A), (0xAB60, 0xAB68), (0xAB70, 0xABBF),
   (0xFB00, 0xFB06), (0xFB13, 0xFB17), (0xFF21, 0xFF3A), (0xFF41, 0xFF5A), (0x10400, 0x1044F),
   (0x104B0, 0x104D3), (0x104D8, 0x104FB), (0x10570, 0x1057A), (0x1057C, 0x1058A),
   (0x1058C, 0x10592), (0x10594, 0x10595), (0x10597, 0x105A1), (0x105A3, 0x105B1),
   (0x105B3, 0x105B9), (0x105BB, 0x105BC), (0x10C80, 0x10CB2), (0x10CC0, 0x10CF2),
   (0x118A0, 0x118DF), (0x16E40, 0x16E7F), (0x1D400, 0x1D454), (0x1D456, 0x1D49C),
   (0x1D49E, 0x1D49F), (0x1D4A2, 0x1D4A2), (0x1D4A5, 0x1D4A6), (0x1D4A9, 0x1D4AC),
   (0x1D4AE, 0x1D4B9), (0x1D4BB, 0x1D4BB), (0x1D4BD, 0x1D4C3), (0x1D4C5, 0x1D505),
   (0x1D507, 0x1D50A), (0x1D50D, 0x1D514), (0x1D516, 0x1D51C), (0x1D51E, 0x1D539),
   (0x1D53B, 0x1D53E), (0x1D540, 0x1D544), (0x1D546, 0x1D546), (0x1D54A, 0x1D550),
   (0x1D552, 0x1D6A5), (0x1D6A8, 0x1D6C0), (0x1D6C2, 0x1D6DA), (0x1D6DC, 0x1D6FA),
   (0x1D6FC, 0x1D714), (0x1D716, 0x1D734), (0x1D736, 0x1D74E), (0x1D750, 0x1D76E),
   (0x1D770, 0x1D788), (0x1D78A, 0x1D7A8), (0x1D7AA, 0x1D7C2), (0x1D7C4, 0x1D7CB),
   (0x1DF00, 0x1DF09), (0x1DF0B, 0x1DF1E), (0x1E900, 0x1E943), (0x1F130, 0x1F149),
   (0x1F150, 0x1F169), (0x1F170, 0x1F189)]

/-- Membership of a code point in a list of ranges. -/
def inRanges (ranges : List (Nat × Nat)) (n : Nat) : Bool :=
  ranges.any fun r => decide (r.1 ≤ n) && decide (n ≤ r.2)

/-- A character that the context rule of the sigma skips. -/
def isCaseIgnorable (c : Char) : Bool := inRanges caseIgnorableRanges c.toNat

/-- A cased character, asked of a character that is not skipped. -/
def isCased (c : Char) : Bool := inRanges casedRanges c.toNat

/-- The lowercase mapping of a code point outside ASCII. -/
def lowerCodePoint (n : Nat) : Nat :=
  match lowerRanges.find? fun r =>
      decide (r.1 ≤ n) && decide (n ≤ r.2.1) && (n - r.1) % r.2.2.1 == 0 with
  | some r => r.2.2.2 + (n - r.1)
  | none => n

/-- The lowercase of one character, whatever stands around it: an ASCII letter
by the ASCII rule, U+0130 as `i` followed by the combining dot U+0307, every
other character by the table. -/
def lowerChar (c : Char) : List Char :=
  if c.toNat < 128 then [c.toLower]
  else if c.toNat = 0x130 then [Char.ofNat 0x69, Char.ofNat 0x307]
  else [Char.ofNat (lowerCodePoint c.toNat)]

/-- The context Final_Sigma: the nearest character before that is not skipped
is cased, and the nearest character after that is not skipped is not cased (or
there is none). `before` lists the characters before the sigma, nearest first. -/
def isFinalSigma (before after : List Char) : Bool :=
  (match before.dropWhile isCaseIgnorable with
    | [] => false
    | c :: _ => isCased c) &&
  (match after.dropWhile isCaseIgnorable with
    | [] => true
    | c :: _ => !isCased c)

/-- Lowercase of the characters that follow `before` (nearest first): the
capital sigma U+03A3 becomes U+03C2 in the context Final_Sigma and U+03C3
elsewhere. -/
def toLowerCaseAux (before : List Char) : List Char → List Char
  | [] => []
  | c :: rest =>
    (if c.toNat = 0x3A3 then
        [Char.ofNat (if isFinalSigma before rest then 0x3C2 else 0x3C3)]
      else lowerChar c) ++ toLowerCaseAux (c :: before) rest

/-- The runtime's `toLowerCase`. -/
def toLowerCase (s : String) : String := ⟨toLowerCaseAux [] s.data⟩

/-- Template-literal rendering of a possibly missing string. -/
def showStr (o : Option String) : String := o.getD "undefined"

/-- The pattern `/^[a-zA-Z0-9]*$/` of the `userName` path. -/
def userNameRegexTest (s : String) : Bool :=
  s.data.all fun c => c.isAlphanum

/-- The part `\S+\.\S+` of the email pattern, matched right after the `@`:
in the run of non-blank characters that starts here, a dot that is neither
the first nor the last character. -/
def matchAfterAt (cs : List Char) : Bool :=
  let run := cs.takeWhile fun c => !isJsWhitespace c
  ((run.drop 1).dropLast).contains '.'

/-- Scan for an `@` preceded by a non-blank character and followed by
`\S+\.\S+`; `prev` is the character before the current position. -/
def emailScan (prev : Option Char) : List Char → Bool
  | [] => false
  | c :: rest =>
    (c == '@' && (match prev with
      | some p => !isJsWhitespace p
      | none => false) && matchAfterAt rest) || emailScan (some c) rest

/-- The unanchored pattern `/\S+@\S+\.\S+/` of the `email` path. -/
def emailRegexTest (s : String) : Bool := emailScan none s.data

/-! ## Documents and request bodies -/

/-- The storage-internal identifier `_id` of a document. -/
structure ObjectId where
  value : Nat
  deriving DecidableEq, Repr

/-- Hexadecimal rendering of an `ObjectId`, 24 digits. -/
def ObjectId.toString (o : ObjectId) : String :=
  let ds := Nat.toDigits 16 o.value
  ⟨List.replicate (24 - ds.length) '0' ++ ds⟩

/-- A user document of `userSchema`. A path that is `undefined` or `null` is
`none`. The system-managed timestamps are not modelled. -/
structure User where
  _id : ObjectId
  id : Option Int
  firstName : Option String
  middleName : Option String
  lastName : Option String
  userName : Option String
  email : Option String
  dateOfBirth : Option JsDate
  gender : Option String
  deriving DecidableEq, Repr

/-- A value of a key of a JSON request body: the key is absent (`undefined`),
`null`, or carries a value. -/
inductive BodyVal (α : Type) where
  | undefined : BodyVal α
  | null : BodyVal α
  | val (a : α) : BodyVal α
  deriving DecidableEq, Repr

/-- A date string of a request body together with the `Date` the schema casts
it to. Strings that cannot be cast to a date are outside the model. -/
structure DateString where
  raw : String
  cast : JsDate
  deriving DecidableEq, Repr

/-- The body of `POST /users/addNewUser` and of `PUT /users/:id`. -/
structure UserBody where
  first_name : BodyVal String
  middle_name : BodyVal String
  last_name : BodyVal String
  email : BodyVal String
  gender : BodyVal String
  date_of_birth : BodyVal DateString
  user_name : BodyVal String
  deriving DecidableEq, Repr

/-- Setter of a string path without string options (`gender`). -/
def setPlain : BodyVal String → Option String
  | .val s => some s
  | _ => none

/-- Setter of a string path declared `trim: true`. -/
def setTrim : BodyVal String → Option String
  | .val s => some (jsTrim s)
  | _ => none

/-- Setter of the `email` path, declared `lowercase: true, trim: true`. -/
def setEmail : BodyVal String → Option String
  | .val s => some (toLowerCase (jsTrim s))
  | _ => none

/-- Cast of the `dateOfBirth` path; the empty string is cast to `null`. -/
def setDate : BodyVal DateString → Option JsDate
  | .val d => if d.raw = "" then none else some d.cast
  | _ => none

/-! ## Validation (`userSchema`) -/

/-- One entry of the `errors` list of a 400 response. -/
structure FieldError where
  field : String
  message : String
  deriving DecidableEq, Repr

/-- Validators of a required, length-bounded name path, in the order the
schema runs them: `required`, `minlength` 2, `maxlength`. The result is the
message of the first validator that fails. -/
def validateName (requiredMsg minMsg maxMsg : String) (maxlength : Nat) :
    Option String → Option String
  | none => some requiredMsg
  | some s =>
    if jsLength s = 0 then some requiredMsg
    else if jsLength s < 2 then some minMsg
    else if maxlength < jsLength s then some maxMsg
    else none

/-- Path `firstName`. -/
def validateFirstName : Option String → Option String :=
  validateName "First name is required" "First name must be at least 8 characters"
    "First name must not exceed 12 characters" 12

/-- Path `middleName`. -/
def validateMiddleName : Option String → Option String :=
  validateName "Middle name is required" "Middle name must be at least 8 characters"
    "Middle name must not exceed 12 characters" 12

/-- Path `lastName`. -/
def validateLastName : Option String → Option String :=
  validateName "Last name is required" "Last name must be at least 8 characters"
    "Last name must not exceed 30 characters" 30

/-- Path `userName`: optional, `maxlength` 12, then `match`; the `match`
validator accepts the empty string. -/
def validateUserName : Option String → Option String
  | none => none
  | some s =>
    if 12 < jsLength s then some "Username must not exceed 12 characters"
    else if s ≠ "" ∧ userNameRegexTest s = false then
      some "Username can only contain letters and numbers"
    else none

/-- Path `email`: `required`, then `match`. -/
def validateEmail : Option String → Option String
  | none => some "Email is required"
  | some s =>
    if jsLength s = 0 then some "Email is required"
    else if emailRegexTest s = false then some "Please provide a valid email address"
    else none

/-- Path `dateOfBirth`: `required`, then the `isAdult` validator. -/
def validateDateOfBirth (today : JsDate) : Option JsDate → Option String
  | none => some "Date of birth is required"
  | some d => if isAdult today d then none else some "User must be at least 18 years old"

/-- Path `gender`: `required`, then `enum`. -/
def validateGender : Option String → Option String
  | none => some "Gender is required"
  | some s =>
    if jsLength s = 0 then some "Gender is required"
    else if s = "male" ∨ s = "female" then none
    else some "Gender must be either male or female"

/-- The message of the first failing validator of the schema path named
`field`; `none` when the path passes or the schema has no validator for it. -/
def pathError (today : JsDate) (u : User) (field : String) : Option String :=
  if field = "firstName" then validateFirstName u.firstName
  else if field = "middleName" then validateMiddleName u.middleName
  else if field = "lastName" then validateLastName u.lastName
  else if field = "userName" then validateUserName u.userName
  else if field = "email" then validateEmail u.email
  else if field = "dateOfBirth" then validateDateOfBirth today u.dateOfBirth
  else if field = "gender" then validateGender u.gender
  else none

/-- Tag a failed path with its name. -/
def fieldError (field : String) : Option String → List FieldError
  | none => []
  | some message => [{ field := field, message := message }]

/-- Document validation: one entry for every path whose validators fail,
listed in schema order. -/
def validateUser (today : JsDate) (u : User) : List FieldError :=
  fieldError "firstName" (validateFirstName u.firstName) ++
  fieldError "middleName" (validateMiddleName u.middleName) ++
  fieldError "lastName" (validateLastName u.lastName) ++
  fieldError "userName" (validateUserName u.userName) ++
  fieldError "email" (validateEmail u.email) ++
  fieldError "dateOfBirth" (validateDateOfBirth today u.dateOfBirth) ++
  fieldError "gender" (validateGender u.gender)

/-! ## The database -/

/-- Modelled from the spec: the counter document of `models/Counter.js`, which
is not among the sources; a singleton-per-name record
`{ name: "userId", seq: integer }`. -/
structure Counter where
  name : String
  seq : Int
  deriving DecidableEq, Repr

/-- The state the handlers act on. `users` is the user collection in insertion
order and `counter` the counter document named `userId` (`none` until the first
upsert creates it). `objectIds` is the generator of fresh `_id` values of the
database driver. `assigned` is a history variable: every value the pre-save hook
has ever assigned as an id, oldest first; no handler reads it. -/
structure Store where
  users : List User
  counter : Option Counter
  objectIds : Nat
  assigned : List Int
  deriving DecidableEq, Repr

/-- The store before the first request. -/
def Store.empty : Store :=
  { users := [], counter := none, objectIds := 0, assigned := [] }

/-- Current `seq` of the counter, 0 while the counter document does not exist. -/
def Store.seq (s : Store) : Int :=
  match s.counter with
  | none => 0
  | some c => c.seq

/-- Modelled from the spec: `Counter.findOneAndUpdate({ name: "userId" },
{ $inc: { seq: 1 } }, { new: true, upsert: true })`, the `nextValue` operation:
one atomic find-or-create and increment that returns the new document. -/
def Counter.findOneAndUpdate (c : Option Counter) : Counter :=
  match c with
  | none => { name := "userId", seq := 1 }
  | some c => { c with seq := c.seq + 1 }

/-- The hook `userSchema.pre("save")`: it runs on every save, of a new document
and of a loaded one alike, increments the counter and assigns its `seq` as id. -/
def preSave (s : Store) (doc : User) : Store × User :=
  let counter := Counter.findOneAndUpdate s.counter
  ({ s with counter := some counter, assigned := s.assigned ++ [counter.seq] },
   { doc with id := some counter.seq })

/-- Errors a save can throw, as the handlers tell them apart. -/
inductive ServerError where
  /-- Has `err.name === "ValidationError"`; `errors` lists `err.errors`. -/
  | validationError (errors : List FieldError) : ServerError
  /-- Has `err.code === 11000`; `field` is the first key of `err.keyValue`. -/
  | duplicateKey (field : String) : ServerError
  /-- Any other error. -/
  | other (message : String) : ServerError
  deriving DecidableEq, Repr

/-- The unique indexes (`_id`, `id`, `email`) checked against the other
documents of the collection: the key of the first index that `doc` violates. -/
def duplicateKeyOf (others : List User) (doc : User) : Option String :=
  if others.any (fun u => u._id == doc._id) then some "_id"
  else if others.any (fun u => u.id == doc.id) then some "id"
  else if others.any (fun u => u.email == doc.email) then some "email"
  else none

/-- Saving a new document (`Model.create`, after the constructor): validation,
then the pre-save hook, then the insert. -/
def User.insert (today : JsDate) (doc : User) (s : Store) : Store × Except ServerError User :=
  match validateUser today doc with
  | e :: es => (s, .error (.validationError (e :: es)))
  | [] =>
    let (s1, doc1) := preSave s doc
    match duplicateKeyOf s1.users doc1 with
    | some field => (s1, .error (.duplicateKey field))
    | none => ({ s1 with users := s1.users ++ [doc1] }, .ok doc1)

/-- The constructor `new User({...})` as the create handler calls it: the
setters of the schema are applied and `_id` is the fresh value `oid`; `id`
stays unset until the pre-save hook. -/
def newUser (oid : ObjectId) (body : UserBody) : User :=
  { _id := oid
    id := none
    firstName := setTrim body.first_name
    middleName := setTrim body.middle_name
    lastName := setTrim body.last_name
    userName := setTrim body.user_name
    email := setEmail body.email
    dateOfBirth := setDate body.date_of_birth
    gender := setPlain body.gender }

/-- A call `User.create({...})` of the create handler: the constructor draws a
fresh `_id`, then the document is saved. -/
def User.create (today : JsDate) (body : UserBody) (s : Store) :
    Store × Except ServerError User :=
  User.insert today (newUser ⟨s.objectIds⟩ body) { s with objectIds := s.objectIds + 1 }

/-- A creation input that passes validation at the date `today` (validation
does not read `_id`). -/
def validInput (today : JsDate) (body : UserBody) : Prop :=
  validateUser today (newUser ⟨0⟩ body) = []

instance (today : JsDate) (body : UserBody) : Decidable (validInput today body) :=
  inferInstanceAs (Decidable (validateUser today (newUser ⟨0⟩ body) = []))

/-- A call `user.save()` on a loaded document: validation, then the pre-save
hook, then the update of the stored document with the same `_id`. -/
def User.save (today : JsDate) (doc : User) (s : Store) : Store × Except ServerError User :=
  match validateUser today doc with
  | e :: es => (s, .error (.validationError (e :: es)))
  | [] =>
    let (s1, doc1) := preSave s doc
    match duplicateKeyOf (s1.users.filter fun u => u._id != doc1._id) doc1 with
    | some field => (s1, .error (.duplicateKey field))
    | none =>
      ({ s1 with users := s1.users.map fun u => if u._id == doc1._id then doc1 else u },
       .ok doc1)

/-- A call `User.findOne({ id: userId })`. -/
def User.findOne (userId : Int) (s : Store) : Option User :=
  s.users.find? fun u => u.id == some userId

/-- A call `User.findOneAndDelete({ id: userId })`: the first matching document
is removed and returned. -/
def User.findOneAndDelete (userId : Int) (s : Store) : Store × Option User :=
  match User.findOne userId s with
  | none => (s, none)
  | some u => ({ s with users := s.users.eraseP fun u => u.id == some userId }, some u)

/-! ## Responses -/

/-- A JSON value in the position of an id: the hexadecimal string of an
`ObjectId`, or a number. -/
inductive IdValue where
  | objectId (o : ObjectId) : IdValue
  | number (n : Int) : IdValue
  deriving DecidableEq, Repr

/-- The `data` object of the 201 response of the create handler; the handler
fills `id` with `user._id`. -/
structure CreatedData where
  id : IdValue
  full_name : String
  age : Option Int
  date_of_birth : BodyVal String
  gender : Option String
  email : Option String
  message : String
  deriving DecidableEq, Repr

/-- The `data` object of the fetch-by-id response. -/
structure UserData where
  id : Option Int
  full_name : String
  age : Option Int
  date_of_birth : Option JsDate
  gender : Option String
  email : Option String
  user_name : Option String
  deriving DecidableEq, Repr

/-- An element of `data` of the list-all response. -/
structure ListItem where
  id : Option Int
  full_name : String
  age : Option Int
  gender : Option String
  email : Option String
  user_name : Option String
  deriving DecidableEq, Repr

/-- An element of `data` of the search response; `date_of_birth` is the date
the handler prints as `YYYY-MM-DD`, or `null`. -/
structure SearchItem where
  id : Option Int
  full_name : String
  age : Option Int
  date_of_birth : Option JsDate
  gender : Option String
  email : Option String
  user_name : Option String
  deriving DecidableEq, Repr

/-- The objects `old_data` and `updated_data` of the update response. -/
structure Snapshot where
  id : Option Int
  first_name : Option String
  middle_name : Option String
  last_name : Option String
  email : Option String
  gender : Option String
  date_of_birth : Option JsDate
  user_name : Option String
  deriving DecidableEq, Repr

/-- JSON bodies the handlers send. -/
inductive ResBody where
  /-- Body `{ success: true, data }` of a create. -/
  | created (data : CreatedData) : ResBody
  /-- Body `{ success: false, message, errors }`. -/
  | failed (message : String) (errors : List FieldError) : ResBody
  /-- Body `{ success, message }`. -/
  | message (success : Bool) (message : String) : ResBody
  /-- Body `{ success: true, count, data }` of the list-all handler. -/
  | listed (count : Nat) (data : List ListItem) : ResBody
  /-- Body `{ success: true, count, data }` of the search handler. -/
  | found (count : Nat) (data : List SearchItem) : ResBody
  /-- Body `{ success: true, data }` of fetch-by-id. -/
  | user (data : UserData) : ResBody
  /-- Body `{ success: true, old_data, updated_data }`. -/
  | updated (old_data updated_data : Snapshot) : ResBody
  deriving DecidableEq, Repr

/-- An HTTP response: status code and JSON body. -/
structure Response where
  status : Nat
  body : ResBody
  deriving DecidableEq, Repr

/-- The error handler of `index.js` that `next(err)` reaches first. -/
def errorHandler (_err : ServerError) : Response :=
  { status := 500, body := .message false "Internal Server Error" }

/-- What the terminal handlers of `index.js` read of a request. -/
structure HttpRequest where
  method : String
  originalUrl : String
  deriving DecidableEq, Repr

/-- The 404 handler of `index.js`, registered with `app.use` after all routes. -/
def notFoundHandler (req : HttpRequest) : Response :=
  { status := 404
    body := .message false
      ("[NOT FOUND] " ++ req.method ++ " " ++ req.originalUrl ++ " - This route does not exist") }

/-- What a route does with a request: it sends a response, or it passes an
error to `next(err)`. -/
inductive Outcome where
  | sent (res : Response) : Outcome
  | failed (err : ServerError) : Outcome
  deriving DecidableEq, Repr

/-- The middleware chain of `index.js`. `routes` stands for everything that is
registered before the two terminal handlers and gives `none` for a request
that matches no route: such a request falls through to the 404 handler, and an
error passed to `next(err)` goes to the error handler. -/
def app (routes : HttpRequest → Option Outcome) (req : HttpRequest) : Response :=
  match routes req with
  | some (.sent res) => res
  | some (.failed err) => errorHandler err
  | none => notFoundHandler req

/-- The `id` of the `data` object of a response to a create, if it has one. -/
def Response.createdId (r : Response) : Option IdValue :=
  match r.body with
  | .created data => some data.id
  | _ => none

/-- Template-literal rendering of a body value. -/
def showBodyVal : BodyVal String → String
  | .undefined => "undefined"
  | .null => "null"
  | .val s => s

/-- Template-literal rendering of a number; `NaN` when there is none. -/
def showAge : Option Int → String
  | none => "NaN"
  | some n => toString n

/-- The raw value of the `date_of_birth` key. -/
def rawDate : BodyVal DateString → BodyVal String
  | .undefined => .undefined
  | .null => .null
  | .val d => .val d.raw

/-- The template `${user.firstName} ${user.middleName} ${user.lastName}`. -/
def fullName (user : User) : String :=
  showStr user.firstName ++ " " ++ showStr user.middleName ++ " " ++ showStr user.lastName

/-! ## Request handlers (`routes/UserRoutes.js`) -/

/-- Handler `router.post("/addNewUser")`. -/
def addNewUser (today : JsDate) (body : UserBody) (s : Store) : Store × Response :=
  match User.create today body s with
  | (s1, .ok user) =>
    let full_name := fullName user
    let age := user.dateOfBirth.map (calculateAge today)
    (s1,
     { status := 201
       body := .created
         { id := .objectId user._id
           full_name := full_name
           age := age
           date_of_birth := rawDate body.date_of_birth
           gender := user.gender
           email := user.email
           message := "Hello Users with ID " ++ user._id.toString ++ " and name " ++ full_name ++
             " (age " ++ showAge age ++ ", DOB " ++ showBodyVal (rawDate body.date_of_birth) ++
             ", " ++ showStr user.gender ++ ", email: " ++ showStr user.email ++
             "). Thanks for registration, we will contact you soon." } })
  | (s1, .error (.validationError errors)) =>
    (s1, { status := 400, body := .failed "Validation failed for one or more fields" errors })
  | (s1, .error (.duplicateKey field)) =>
    (s1,
     { status := 400
       body := .failed "Validation failed for one or more fields"
         [{ field := field, message := field ++ " already exists" }] })
  | (s1, .error err) => (s1, errorHandler err)

/-- Handler `router.get("/:id")`; `userId` is the parsed path parameter. -/
def getUserById (today : JsDate) (userId : Int) (s : Store) : Response :=
  match User.findOne userId s with
  | none => { status := 404, body := .message false ("User with ID " ++ toString userId ++ " not found") }
  | some user =>
    { status := 200
      body := .user
        { id := user.id
          full_name := fullName user
          age := user.dateOfBirth.map (calculateAge today)
          date_of_birth := user.dateOfBirth
          gender := user.gender
          email := user.email
          user_name := user.userName } }

/-- Handler `router.delete("/:id")`. -/
def deleteUser (userId : Int) (s : Store) : Store × Response :=
  match User.findOneAndDelete userId s with
  | (s1, none) =>
    (s1, { status := 404, body := .message false ("User with ID " ++ toString userId ++ " not found") })
  | (s1, some _) =>
    (s1,
     { status := 200
       body := .message true ("User with ID " ++ toString userId ++ " has been deleted successfully") })

/-- What `old_data` and `updated_data` read from a document. -/
def snapshot (user : User) : Snapshot :=
  { id := user.id
    first_name := user.firstName
    middle_name := user.middleName
    last_name := user.lastName
    email := user.email
    gender := user.gender
    date_of_birth := user.dateOfBirth
    user_name := user.userName }

/-- One line `if (x !== undefined) user.path = x` of the update handler. -/
def assignIfDefined {α β : Type} (set : BodyVal α → Option β) (x : BodyVal α) (old : Option β) :
    Option β :=
  match x with
  | .undefined => old
  | x => set x

/-- The seven conditional assignments of the update handler. -/
def applyBody (user : User) (body : UserBody) : User :=
  { user with
    firstName := assignIfDefined setTrim body.first_name user.firstName
    middleName := assignIfDefined setTrim body.middle_name user.middleName
    lastName := assignIfDefined setTrim body.last_name user.lastName
    email := assignIfDefined setEmail body.email user.email
    gender := assignIfDefined setPlain body.gender user.gender
    dateOfBirth := assignIfDefined setDate body.date_of_birth user.dateOfBirth
    userName := assignIfDefined setTrim body.user_name user.userName }

/-- Handler `router.put("/:id")`. Its `catch` handles the duplicate key error
only; every other error goes to `next(err)`. -/
def updateUser (today : JsDate) (userId : Int) (body : UserBody) (s : Store) : Store × Response :=
  match User.findOne userId s with
  | none =>
    (s, { status := 404, body := .message false ("User with ID " ++ toString userId ++ " not found") })
  | some user =>
    let old_data := snapshot user
    let user := applyBody user body
    match User.save today user s with
    | (s1, .ok user) => (s1, { status := 200, body := .updated old_data (snapshot user) })
    | (s1, .error (.duplicateKey field)) =>
      (s1, { status := 400, body := .message false ("Duplicate value for field: " ++ field) })
    | (s1, .error err) => (s1, errorHandler err)

/-- The runtime's `split(" ")`: the pieces between single space characters;
two adjacent spaces give an empty piece. -/
def splitOnSpace : List Char → List (List Char)
  | [] => [[]]
  | c :: cs =>
    if c = ' ' then [] :: splitOnSpace cs
    else
      match splitOnSpace cs with
      | [] => [[c]]
      | p :: ps => (c :: p) :: ps

/-- Whether `p` occurs in the list as a contiguous block. -/
def occursIn (p : List Char) : List Char → Bool
  | [] => p.isEmpty
  | c :: cs => p.isPrefixOf (c :: cs) || occursIn p cs

/-- The condition `{ $regex: part, $options: "i" }` on a string, for a `part`
without regular-expression metacharacters: such a pattern matches exactly when
it occurs in the string, letter case ignored, and the empty pattern matches
every string. Letter case is that of the ASCII letters. Parts with
metacharacters and letters outside ASCII are outside the model (see
`isPlainAscii`). -/
def regexTestI (part : List Char) (value : String) : Bool :=
  occursIn (part.map Char.toLower) (value.data.map Char.toLower)

/-- The characters with a meaning of their own in a regular expression:
`\ ^ $ . [ ] | ( ) ? * + { }`, by code point. -/
def isRegexMeta (c : Char) : Bool :=
  [92, 94, 36, 46, 91, 93, 124, 40, 41, 63, 42, 43, 123, 125].contains c.toNat

/-- A text of ASCII characters without regular-expression metacharacters: on
such parts and names the model of `$regex` with option `i` is exact. -/
def isPlainAscii (cs : List Char) : Bool :=
  cs.all fun c => decide (c.toNat < 128) && !isRegexMeta c

/-- The first, middle and last name of a user are plain ASCII texts. -/
def hasPlainNames (u : User) : Bool :=
  [u.firstName, u.middleName, u.lastName].all fun name =>
    match name with
    | none => true
    | some v => isPlainAscii v.data

/-- A part the database rejects as a regular expression, as far as modelled: a
pattern that starts with a quantifier (`*`, `+` or `?`) has nothing to repeat.
The query then fails with an error. Other malformed patterns are outside the
model. -/
def regexInvalid (part : List Char) : Bool :=
  match part with
  | [] => false
  | c :: _ => c == '*' || c == '+' || c == '?'

/-- A condition `{ path: { $regex: part, $options: "i" } }` on a path of a
document; a missing path does not match. -/
def regexOnPath (part : List Char) : Option String → Bool
  | none => false
  | some value => regexTestI part value

/-- The `$or` list the search handler builds: three conditions for every part. -/
def searchQuery (nameParts : List (List Char)) : List (User → Bool) :=
  nameParts.flatMap fun part =>
    [fun u => regexOnPath part u.firstName,
     fun u => regexOnPath part u.middleName,
     fun u => regexOnPath part u.lastName]

/-- A call `User.find({ $or: ... })`: the documents that satisfy at least one
condition, in collection order. -/
def User.find (conditions : List (User → Bool)) (s : Store) : List User :=
  s.users.filter fun u => conditions.any fun c => c u

/-- The projection `.select("firstName middleName lastName ... userName")` of
the list and search handlers: the path `id` is not in the list. -/
def select (u : User) : User := { u with id := none }

/-- The documents the search handler queries for a query that passed the
blank check and that the database accepts. -/
def searchUsers (full_name : String) (s : Store) : List User :=
  let nameParts := splitOnSpace (jsTrim full_name).data
  User.find (searchQuery nameParts) s

/-- Handler `router.get("/search")`; `full_name` is the query parameter,
`none` when it is missing. When the database rejects the query, the `catch`
passes the error to `next(err)`. -/
def search (today : JsDate) (full_name : Option String) (s : Store) : Response :=
  match full_name with
  | none =>
    { status := 400, body := .message false "Please provide a full_name query parameter." }
  | some q =>
    if q = "" ∨ jsTrim q = "" then
      { status := 400, body := .message false "Please provide a full_name query parameter." }
    else if (splitOnSpace (jsTrim q).data).any regexInvalid then
      errorHandler (.other "Regular expression is invalid")
    else
      let users := (searchUsers q s).map select
      let data : List SearchItem := users.map fun user =>
        { id := user.id
          full_name := fullName user
          age := user.dateOfBirth.map (calculateAge today)
          date_of_birth := user.dateOfBirth
          gender := user.gender
          email := user.email
          user_name := user.userName }
      { status := 200, body := .found data.length data }

/-- Handler `router.get("/getAllUsersRegisteredData")`. -/
def getAllUsersRegisteredData (today : JsDate) (s : Store) : Response :=
  let users := s.users.map select
  let data : List ListItem := users.map fun user =>
    { id := user.id
      full_name := fullName user
      age := user.dateOfBirth.map (calculateAge today)
      gender := user.gender
      email := user.email
      user_name := user.userName }
  { status := 200, body := .listed data.length data }

/-! ### The search of the specification -/

/-- The tokens of a query in the words of the specification: the maximal runs
of characters that are not white space. `cur` is the run being read, reversed. -/
def whitespaceTokensAux (cur : List Char) : List Char → List (List Char)
  | [] => if cur.isEmpty then [] else [cur.reverse]
  | c :: cs =>
    if isJsWhitespace c then
      (if cur.isEmpty then [] else [cur.reverse]) ++ whitespaceTokensAux [] cs
    else whitespaceTokensAux (c :: cur) cs

/-- Splitting a query on white space. -/
def whitespaceTokens (query : String) : List (List Char) :=
  whitespaceTokensAux [] query.data

/-- A token occurs in a name as a literal substring, letter case ignored. -/
def occursInName (token : List Char) : Option String → Bool
  | none => false
  | some name => occursIn (token.map Char.toLower) (name.data.map Char.toLower)

/-- The match of the specification: some token of the query occurs in the
first, middle or last name of the user. -/
def specMatch (query : String) (u : User) : Bool :=
  (whitespaceTokens query).any fun token =>
    occursInName token u.firstName || occursInName token u.middleName ||
      occursInName token u.lastName

/-! ## Reachable stores -/

/-- A request that can change the store. -/
inductive Request where
  | create (body : UserBody) : Request
  | update (userId : Int) (body : UserBody) : Request
  | delete (userId : Int) : Request
  deriving DecidableEq, Repr

/-- The handler of a request, run at the date `today`. -/
def handle (today : JsDate) (r : Request) (s : Store) : Store × Response :=
  match r with
  | .create body => addNewUser today body s
  | .update userId body => updateUser today userId body s
  | .delete userId => deleteUser userId s

/-- Run a sequence of requests, each with its own current date. -/
def run (s : Store) : List (JsDate × Request) → Store
  | [] => s
  | (today, r) :: rest => run (handle today r s).1 rest

/-- A store reached from `s` by some sequence of create, update and delete
requests. -/
def ReachableFrom (s t : Store) : Prop := ∃ rs, run s rs = t

/-- A store reached from the empty store. -/
def Reachable (s : Store) : Prop := ReachableFrom Store.empty s

/-- No stored user has the id `k`, and the counter has passed `k`. -/
def Gone (k : Int) (s : Store) : Prop :=
  k ≤ s.seq ∧ ∀ u ∈ s.users, u.id ≠ some k

/-- What holds of every reachable store: no id beyond the counter was ever
assigned, every stored id was assigned by the hook, `_id` values come from the
generator, and neither ids nor `_id` values repeat. -/
structure Inv (s : Store) : Prop where
  assigned_le : ∀ n ∈ s.assigned, n ≤ s.seq
  id_assigned : ∀ u ∈ s.users, ∃ n, u.id = some n ∧ n ∈ s.assigned
  oid_lt : ∀ u ∈ s.users, u._id.value < s.objectIds
  distinct : s.users.Pairwise fun a b => a.id ≠ b.id ∧ a._id ≠ b._id

/-! ## Sample requests -/

/-- A date used as the current date of the samples: 17 June 2024, a Monday. -/
def Sample.today : JsDate := ⟨2024, 5, 17⟩

/-- A valid creation input. -/
def Sample.ann : UserBody :=
  { first_name := .val "Ann"
    middle_name := .val "Bea"
    last_name := .val "Smith"
    email := .val " Ann@X.com "
    gender := .val "female"
    date_of_birth := .val ⟨"2000-06-15", ⟨2000, 5, 15⟩⟩
    user_name := .undefined }

/-- A second valid creation input. -/
def Sample.joe : UserBody :=
  { first_name := .val "Joe"
    middle_name := .val "Max"
    last_name := .val "Lee"
    email := .val "joe@x.com"
    gender := .val "male"
    date_of_birth := .val ⟨"1990-01-01", ⟨1990, 0, 1⟩⟩
    user_name := .val "joe90" }

/-- A body with no key at all. -/
def Sample.noKeys : UserBody :=
  { first_name := .undefined
    middle_name := .undefined
    last_name := .undefined
    email := .undefined
    gender := .undefined
    date_of_birth := .undefined
    user_name := .undefined }

/-- The document stored for Ann. -/
def Sample.annDoc : User :=
  { _id := ⟨0⟩
    id := some 1
    firstName := some "Ann"
    middleName := some "Bea"
    lastName := some "Smith"
    userName := none
    email := some "ann@x.com"
    dateOfBirth := some ⟨2000, 5, 15⟩
    gender := some "female" }

/-- An update body with the key `email` only. -/
def Sample.onlyEmail : UserBody := { Sample.noKeys with email := .val "new@x.com" }

/-- An update body with a first name of one character. -/
def Sample.shortFirstName : UserBody := { Sample.noKeys with first_name := .val "A" }

/-- A creation input that breaks the rules of two fields: the first name has
one character and the gender is not in the enumeration. -/
def Sample.twoViolations : UserBody :=
  { Sample.joe with first_name := .val " A ", gender := .val "other" }

/-- Routes for the samples: `GET /test-error` passes an error to `next`, no
other request matches. -/
def Sample.routes (req : HttpRequest) : Option Outcome :=
  if req.method = "GET" ∧ req.originalUrl = "/test-error" then
    some (.failed (.other "Something went wrong"))
  else none

/-- The store after Ann registered. -/
def Sample.one : Store := (addNewUser Sample.today Sample.ann Store.empty).1

/-- The store after Ann registered and was deleted again. -/
def Sample.afterDelete : Store := (deleteUser 1 Sample.one).1

/-- The store after Ann registered, was deleted, and Joe registered. -/
def Sample.two : Store := (addNewUser Sample.today Sample.joe Sample.afterDelete).1

/-- The document stored for Joe in `Sample.two`. -/
def Sample.joeDoc : User :=
  { _id := ⟨1⟩
    id := some 2
    firstName := some "Joe"
    middleName := some "Max"
    lastName := some "Lee"
    userName := some "joe90"
    email := some "joe@x.com"
    dateOfBirth := some ⟨1990, 0, 1⟩
    gender := some "male" }

/-- A third valid creation input. -/
def Sample.tom : UserBody :=
  { first_name := .val "Tom"
    middle_name := .val "Bob"
    last_name := .val "Kim"
    email := .val "tom@x.com"
    gender := .val "male"
    date_of_birth := .val ⟨"1985-03-09", ⟨1985, 2, 9⟩⟩
    user_name := .undefined }

/-- The store after Ann, Joe and Tom registered. -/
def Sample.three : Store :=
  (addNewUser Sample.today Sample.tom
    (addNewUser Sample.today Sample.joe Sample.one).1).1

/-- The input of Ann with the email in another letter case. -/
def Sample.annUpper : UserBody := { Sample.ann with email := .val "ANN@x.COM" }

/-- A valid creation input whose email has a capital letter outside ASCII. -/
def Sample.lea : UserBody :=
  { Sample.tom with first_name := .val "Léa", email := .val " ÉA@X.COM " }

/-- The input of Léa with the email in small letters. -/
def Sample.leaLower : UserBody := { Sample.lea with email := .val "éa@x.com" }

/-! ## Checks of the definitions on concrete inputs -/

set_option maxRecDepth 8000

example : jsTrim "  ab c \n" = "ab c" := by decide
example : emailRegexTest "a@b.c" = true := by decide
example : emailRegexTest "a@b." = false := by decide
example : emailRegexTest "@b.c" = false := by decide
example : emailRegexTest "x y@b.cd z" = true := by decide
example : emailRegexTest "a@.c" = false := by decide
example : toLowerCase "Ann@X.Com" = "ann@x.com" := by decide
example : toLowerCase "ÉA@X.COM" = "éa@x.com" := by decide
example : toLowerCase "ΑΣ@Σ.ΣΑ" = "ας@σ.σα" := by decide
example : toLowerCase "İSTANBUL@X.IO" = "i̇stanbul@x.io" := by decide
example : toLowerCase "K@Å.com" = "k@å.com" := by decide
example : toLowerCase "ДЖОН@ПОЧТА.РФ" = "джон@почта.рф" := by decide
example : jsLength "abc" = 3 := by decide

example : JsDate.getDay ⟨1970, 0, 1⟩ = 4 := by decide
example : JsDate.getDay ⟨2000, 5, 15⟩ = 4 := by decide
example : JsDate.getDay ⟨2024, 5, 17⟩ = 1 := by decide
example : JsDate.getDay ⟨2026, 10, 6⟩ = 5 := by decide
example : calculateAge ⟨2024, 5, 17⟩ ⟨2000, 5, 15⟩ = 23 := by decide
example : calendarAge ⟨2024, 5, 17⟩ ⟨2000, 5, 15⟩ = 24 := by decide
example : isAdult ⟨2024, 5, 17⟩ ⟨2006, 5, 17⟩ = true := by decide
example : isAdult ⟨2024, 5, 17⟩ ⟨2006, 5, 18⟩ = false := by decide

/-! ## The save pipeline -/

theorem seq_findOneAndUpdate (c : Option Counter) :
    (Counter.findOneAndUpdate c).seq = Store.seq { users := [], counter := c, objectIds := 0, assigned := [] } + 1 := by
  cases c <;> simp [Counter.findOneAndUpdate, Store.seq]

theorem preSave_seq (s : Store) (doc : User) : (preSave s doc).1.seq = s.seq + 1 := by
  cases h : s.counter <;> simp [preSave, Store.seq, Counter.findOneAndUpdate, h]

theorem preSave_users (s : Store) (doc : User) : (preSave s doc).1.users = s.users := rfl

theorem preSave_objectIds (s : Store) (doc : User) : (preSave s doc).1.objectIds = s.objectIds := rfl

theorem preSave_assigned (s : Store) (doc : User) :
    (preSave s doc).1.assigned = s.assigned ++ [s.seq + 1] := by
  cases h : s.counter <;> simp [preSave, Store.seq, Counter.findOneAndUpdate, h]

theorem preSave_doc (s : Store) (doc : User) :
    (preSave s doc).2 = { doc with id := some (s.seq + 1) } := by
  cases h : s.counter <;> simp [preSave, Store.seq, Counter.findOneAndUpdate, h]

/-- The three outcomes of saving a new document. -/
theorem insert_cases (today : JsDate) (doc : User) (s : Store) :
    (validateUser today doc ≠ [] ∧
      User.insert today doc s = (s, .error (.validationError (validateUser today doc)))) ∨
    (validateUser today doc = [] ∧ ∃ field,
      duplicateKeyOf s.users (preSave s doc).2 = some field ∧
      User.insert today doc s = ((preSave s doc).1, .error (.duplicateKey field))) ∨
    (validateUser today doc = [] ∧ duplicateKeyOf s.users (preSave s doc).2 = none ∧
      User.insert today doc s =
        ({ (preSave s doc).1 with users := s.users ++ [(preSave s doc).2] }, .ok (preSave s doc).2)) := by
  unfold User.insert
  cases hv : validateUser today doc with
  | cons e es => left; simp
  | nil =>
    right
    simp only [preSave_users]
    cases hd : duplicateKeyOf s.users (preSave s doc).2 with
    | some field => left; exact ⟨trivial, field, rfl, by simp [hd]⟩
    | none => right; exact ⟨trivial, rfl, by simp [hd]⟩

theorem save_cases (today : JsDate) (doc : User) (s : Store) :
    (validateUser today doc ≠ [] ∧
      User.save today doc s = (s, .error (.validationError (validateUser today doc)))) ∨
    (validateUser today doc = [] ∧ ∃ field,
      duplicateKeyOf (s.users.filter fun u => u._id != doc._id) (preSave s doc).2 = some field ∧
      User.save today doc s = ((preSave s doc).1, .error (.duplicateKey field))) ∨
    (validateUser today doc = [] ∧
      duplicateKeyOf (s.users.filter fun u => u._id != doc._id) (preSave s doc).2 = none ∧
      User.save today doc s =
        ({ (preSave s doc).1 with
            users := s.users.map fun u => if u._id == doc._id then (preSave s doc).2 else u },
         .ok (preSave s doc).2)) := by
  unfold User.save
  have hid : (preSave s doc).2._id = doc._id := by rw [preSave_doc]
  cases hv : validateUser today doc with
  | cons e es => left; simp
  | nil =>
    right
    simp only [preSave_users, hid]
    cases hd : duplicateKeyOf (s.users.filter fun u => u._id != doc._id) (preSave s doc).2 with
    | some field => left; exact ⟨trivial, field, rfl, by simp [hd]⟩
    | none => right; exact ⟨trivial, rfl, by simp [hd]⟩


/-! ## The invariant of reachable stores -/

theorem inv_empty : Inv Store.empty :=
  { assigned_le := by simp [Store.empty]
    id_assigned := by simp [Store.empty]
    oid_lt := by simp [Store.empty]
    distinct := by simp [Store.empty] }

/-- The hook keeps the invariant of the store. -/
theorem inv_preSave {s : Store} (h : Inv s) (doc : User) : Inv (preSave s doc).1 :=
  { assigned_le := by
      intro n hn
      rw [preSave_assigned, List.mem_append, List.mem_singleton] at hn
      rw [preSave_seq]
      rcases hn with hn | hn
      · have := h.assigned_le n hn
        omega
      · omega
    id_assigned := by
      intro u hu
      obtain ⟨n, h1, h2⟩ := h.id_assigned u hu
      exact ⟨n, h1, by rw [preSave_assigned]; exact List.mem_append_left _ h2⟩
    oid_lt := h.oid_lt
    distinct := h.distinct }

/-- A stored id is at most the counter. -/
theorem Inv.id_le {s : Store} (h : Inv s) {u : User} (hu : u ∈ s.users) {n : Int}
    (hn : u.id = some n) : n ≤ s.seq := by
  obtain ⟨m, h1, h2⟩ := h.id_assigned u hu
  rw [hn] at h1
  cases h1
  exact h.assigned_le n h2

/-- In a store that satisfies the invariant the id of a saved document is new. -/
theorem Inv.fresh_id {s : Store} (h : Inv s) {u : User} (hu : u ∈ s.users) :
    u.id ≠ some (s.seq + 1) := by
  intro hn
  have := h.id_le hu hn
  omega

theorem duplicateKeyOf_eq_none {others : List User} {doc : User}
    (h : duplicateKeyOf others doc = none) :
    ∀ u ∈ others, u._id ≠ doc._id ∧ u.id ≠ doc.id ∧ u.email ≠ doc.email := by
  unfold duplicateKeyOf at h
  split at h
  · cases h
  · split at h
    · cases h
    · split at h
      · cases h
      · intro u hu
        simp only [List.any_eq_true, beq_iff_eq, not_exists, not_and] at *
        exact ⟨by tauto, by tauto, by tauto⟩


theorem inv_insert {s : Store} (h : Inv s) (today : JsDate) (doc : User)
    (hfresh : ∀ u ∈ s.users, u._id ≠ doc._id) (hlt : doc._id.value < s.objectIds) :
    Inv (User.insert today doc s).1 := by
  rcases insert_cases today doc s with ⟨_, he⟩ | ⟨_, field, _, he⟩ | ⟨_, _, he⟩
  · rw [he]; exact h
  · rw [he]; exact inv_preSave h doc
  · rw [he]
    have hp := inv_preSave h doc
    refine
      { assigned_le := hp.assigned_le
        id_assigned := ?_
        oid_lt := ?_
        distinct := ?_ }
    · intro u hu
      simp only [List.mem_append, List.mem_singleton] at hu
      rcases hu with hu | hu
      · exact hp.id_assigned u hu
      · subst hu
        refine ⟨s.seq + 1, by rw [preSave_doc], ?_⟩
        show s.seq + 1 ∈ (preSave s doc).1.assigned
        rw [preSave_assigned]
        simp
    · intro u hu
      simp only [List.mem_append, List.mem_singleton] at hu
      rcases hu with hu | hu
      · exact h.oid_lt u hu
      · subst hu
        show (preSave s doc).2._id.value < (preSave s doc).1.objectIds
        rw [preSave_doc, preSave_objectIds]
        exact hlt
    · show List.Pairwise _ (s.users ++ [(preSave s doc).2])
      rw [List.pairwise_append]
      refine ⟨h.distinct, List.pairwise_singleton _ _, ?_⟩
      intro a ha b hb
      rw [List.mem_singleton] at hb
      subst hb
      rw [preSave_doc]
      exact ⟨h.fresh_id ha, hfresh a ha⟩

theorem inv_save {s : Store} (h : Inv s) (today : JsDate) (doc : User) :
    Inv (User.save today doc s).1 := by
  rcases save_cases today doc s with ⟨_, he⟩ | ⟨_, field, _, he⟩ | ⟨_, _, he⟩
  · rw [he]; exact h
  · rw [he]; exact inv_preSave h doc
  · rw [he]
    have hp := inv_preSave h doc
    refine
      { assigned_le := hp.assigned_le
        id_assigned := ?_
        oid_lt := ?_
        distinct := ?_ }
    · intro u hu
      simp only [List.mem_map] at hu
      obtain ⟨v, hv, rfl⟩ := hu
      split
      · refine ⟨s.seq + 1, by rw [preSave_doc], ?_⟩
        show s.seq + 1 ∈ (preSave s doc).1.assigned
        rw [preSave_assigned]
        simp
      · exact hp.id_assigned v hv
    · intro u hu
      simp only [List.mem_map] at hu
      obtain ⟨v, hv, rfl⟩ := hu
      show _ < s.objectIds
      split
      · rename_i hc
        rw [preSave_doc]
        simp only [beq_iff_eq] at hc
        rw [← hc]
        exact h.oid_lt v hv
      · exact h.oid_lt v hv
    · show List.Pairwise _ (s.users.map _)
      rw [List.pairwise_map]
      refine h.distinct.imp_of_mem ?_
      intro a b ha hb hab
      rw [preSave_doc]
      by_cases hca : a._id = doc._id <;> by_cases hcb : b._id = doc._id
      · exact absurd (hca.trans hcb.symm) hab.2
      · simp only [hca, hcb, beq_self_eq_true, if_true, beq_iff_eq, if_false]
        exact ⟨fun hh => h.fresh_id hb hh.symm, fun hh => hcb hh.symm⟩
      · simp only [hca, hcb, beq_self_eq_true, if_true, beq_iff_eq, if_false]
        exact ⟨h.fresh_id ha, hca⟩
      · simp only [hca, hcb, beq_iff_eq, if_false]
        exact hab

theorem inv_delete {s : Store} (h : Inv s) (userId : Int) :
    Inv (User.findOneAndDelete userId s).1 := by
  unfold User.findOneAndDelete
  split
  · exact h
  · have hsub : (s.users.eraseP fun u => u.id == some userId).Sublist s.users :=
      List.eraseP_sublist _
    exact
      { assigned_le := h.assigned_le
        id_assigned := fun u hu => h.id_assigned u (hsub.subset hu)
        oid_lt := fun u hu => h.oid_lt u (hsub.subset hu)
        distinct := h.distinct.sublist hsub }


/-! ## Stores the handlers leave behind -/

theorem addNewUser_fst (today : JsDate) (body : UserBody) (s : Store) :
    (addNewUser today body s).1 = (User.create today body s).1 := by
  unfold addNewUser
  split <;> simp_all

theorem deleteUser_fst (userId : Int) (s : Store) :
    (deleteUser userId s).1 = (User.findOneAndDelete userId s).1 := by
  unfold deleteUser
  split <;> simp_all

theorem updateUser_fst (today : JsDate) (userId : Int) (body : UserBody) (s : Store) :
    (updateUser today userId body s).1 =
      match User.findOne userId s with
      | none => s
      | some user => (User.save today (applyBody user body) s).1 := by
  unfold updateUser
  split
  · rfl
  · dsimp only
    split <;> simp_all

theorem inv_create {s : Store} (h : Inv s) (today : JsDate) (body : UserBody) :
    Inv (User.create today body s).1 := by
  unfold User.create
  have h1 : Inv { s with objectIds := s.objectIds + 1 } :=
    { assigned_le := h.assigned_le
      id_assigned := h.id_assigned
      oid_lt := fun u hu => Nat.lt_succ_of_lt (h.oid_lt u hu)
      distinct := h.distinct }
  refine inv_insert h1 today _ ?_ ?_
  · intro u hu heq
    have := h.oid_lt u hu
    rw [heq] at this
    exact Nat.lt_irrefl _ this
  · exact Nat.lt_succ_self _

theorem inv_handle {s : Store} (h : Inv s) (today : JsDate) (r : Request) :
    Inv (handle today r s).1 := by
  cases r with
  | create body => simp only [handle, addNewUser_fst]; exact inv_create h today body
  | update userId body =>
    simp only [handle, updateUser_fst]
    split
    · exact h
    · exact inv_save h today _
  | delete userId => simp only [handle, deleteUser_fst]; exact inv_delete h userId

theorem inv_run {s : Store} (h : Inv s) (rs : List (JsDate × Request)) : Inv (run s rs) := by
  induction rs generalizing s with
  | nil => exact h
  | cons r rest ih => exact ih (inv_handle h r.1 r.2)

/-- Every reachable store satisfies the invariant. -/
theorem Reachable.inv {s : Store} (h : Reachable s) : Inv s := by
  obtain ⟨rs, rfl⟩ := h
  exact inv_run inv_empty rs

/-! ## The counter never decreases -/

theorem seq_le_insert (today : JsDate) (doc : User) (s : Store) :
    s.seq ≤ (User.insert today doc s).1.seq := by
  rcases insert_cases today doc s with ⟨_, he⟩ | ⟨_, field, _, he⟩ | ⟨_, _, he⟩
  · rw [he]
  · rw [he]; show s.seq ≤ (preSave s doc).1.seq; rw [preSave_seq]; omega
  · rw [he]; show s.seq ≤ (preSave s doc).1.seq; rw [preSave_seq]; omega

theorem seq_le_save (today : JsDate) (doc : User) (s : Store) :
    s.seq ≤ (User.save today doc s).1.seq := by
  rcases save_cases today doc s with ⟨_, he⟩ | ⟨_, field, _, he⟩ | ⟨_, _, he⟩
  · rw [he]
  · rw [he]; show s.seq ≤ (preSave s doc).1.seq; rw [preSave_seq]; omega
  · rw [he]; show s.seq ≤ (preSave s doc).1.seq; rw [preSave_seq]; omega

theorem seq_delete (userId : Int) (s : Store) :
    (User.findOneAndDelete userId s).1.seq = s.seq := by
  unfold User.findOneAndDelete
  split <;> rfl

theorem seq_le_handle (today : JsDate) (r : Request) (s : Store) :
    s.seq ≤ (handle today r s).1.seq := by
  cases r with
  | create body =>
    simp only [handle, addNewUser_fst, User.create]
    exact seq_le_insert today _ { s with objectIds := s.objectIds + 1 }
  | update userId body =>
    simp only [handle, updateUser_fst]
    split
    · exact le_refl _
    · exact seq_le_save today _ s
  | delete userId => simp only [handle, deleteUser_fst, seq_delete]; exact le_refl _

theorem seq_le_run (s : Store) (rs : List (JsDate × Request)) : s.seq ≤ (run s rs).seq := by
  induction rs generalizing s with
  | nil => exact le_refl _
  | cons r rest ih => exact le_trans (seq_le_handle r.1 r.2 s) (ih _)


/-! ## Claims -/

theorem validateUser_newUser (today : JsDate) (oid : ObjectId) (body : UserBody) :
    validateUser today (newUser oid body) = validateUser today (newUser ⟨0⟩ body) := rfl

/-- The store a create leaves behind when its input is valid: the hook has run. -/
theorem create_valid_store (today : JsDate) (body : UserBody) (s : Store)
    (hvalid : validInput today body) :
    (User.create today body s).1.seq = s.seq + 1 ∧
    (User.create today body s).1.assigned = s.assigned ++ [s.seq + 1] ∧
    ∀ u, (User.create today body s).2 = .ok u → u.id = some (s.seq + 1) := by
  unfold User.create
  have hv : validateUser today (newUser ⟨s.objectIds⟩ body) = [] := hvalid
  rcases insert_cases today (newUser ⟨s.objectIds⟩ body) { s with objectIds := s.objectIds + 1 }
    with ⟨hne, _⟩ | ⟨_, field, _, he⟩ | ⟨_, _, he⟩
  · exact absurd hv hne
  · rw [he]
    refine ⟨preSave_seq { s with objectIds := s.objectIds + 1 } (newUser ⟨s.objectIds⟩ body),
      preSave_assigned { s with objectIds := s.objectIds + 1 } (newUser ⟨s.objectIds⟩ body), ?_⟩
    intro u hu
    cases hu
  · rw [he]
    refine ⟨preSave_seq { s with objectIds := s.objectIds + 1 } (newUser ⟨s.objectIds⟩ body),
      preSave_assigned { s with objectIds := s.objectIds + 1 } (newUser ⟨s.objectIds⟩ body), ?_⟩
    intro u hu
    simp only [Except.ok.injEq] at hu
    rw [← hu, preSave_doc]
    rfl

/-- Claim C1: in every store reachable by create, update and delete requests, a
create with a valid input assigns as id the counter value after the increment,
and that id is strictly greater than every id assigned before: than every
value in the history of assigned ids, and than the id of every user of every
earlier store, deleted since or not. -/
theorem create_id_exceeds_all_earlier (s : Store) (hs : Reachable s) (today : JsDate)
    (body : UserBody) (hvalid : validInput today body) :
    (addNewUser today body s).1.assigned = s.assigned ++ [(addNewUser today body s).1.seq] ∧
    (∀ u, (User.create today body s).2 = .ok u →
      u.id = some (addNewUser today body s).1.seq) ∧
    (∀ n ∈ s.assigned, n < (addNewUser today body s).1.seq) ∧
    (∀ t, Reachable t → ReachableFrom t s → ∀ u ∈ t.users, ∀ n, u.id = some n →
      n < (addNewUser today body s).1.seq) := by
  obtain ⟨h1, h2, h3⟩ := create_valid_store today body s hvalid
  rw [addNewUser_fst, h1]
  refine ⟨h2, h3, ?_, ?_⟩
  · intro n hn
    have := hs.inv.assigned_le n hn
    omega
  · intro t ht hts u hu n hn
    obtain ⟨rs, rfl⟩ := hts
    have h4 := ht.inv.id_le hu hn
    have h5 := seq_le_run t rs
    omega

/-- Witness of C1: Ann registers and is deleted, then Joe registers; the id
Joe gets exceeds the id Ann had. -/
theorem create_id_exceeds_all_earlier_witness :
    Reachable Sample.afterDelete ∧ validInput Sample.today Sample.joe ∧
    (addNewUser Sample.today Sample.joe Sample.afterDelete).1.assigned =
      Sample.afterDelete.assigned ++
        [(addNewUser Sample.today Sample.joe Sample.afterDelete).1.seq] ∧
    ∀ n ∈ Sample.afterDelete.assigned,
      n < (addNewUser Sample.today Sample.joe Sample.afterDelete).1.seq :=
  have hr : Reachable Sample.afterDelete :=
    ⟨[(Sample.today, .create Sample.ann), (Sample.today, .delete 1)], by decide⟩
  have hv : validInput Sample.today Sample.joe := by decide
  have h := create_id_exceeds_all_earlier Sample.afterDelete hr Sample.today Sample.joe hv
  ⟨hr, hv, h.1, h.2.2.1⟩

/-- Claim C3: with the current date as a parameter, `isAdult` accepts a date of
birth exactly when (year, month, day) is lexicographically at most the current
date moved 18 years back; a date of birth exactly 18 years before today is
accepted and the day after it is rejected. -/
theorem isAdult_iff_lex_le (today dob : JsDate) :
    (isAdult today dob = true ↔
      (dob.year < today.year - 18 ∨
        (dob.year = today.year - 18 ∧
          (dob.month < today.month ∨ (dob.month = today.month ∧ dob.date ≤ today.date))))) ∧
    isAdult today { today with year := today.year - 18 } = true ∧
    isAdult today (JsDate.dayAfter { today with year := today.year - 18 }) = false := by
  have key : ∀ t d : JsDate, isAdult t d = true ↔
      (d.year < t.year - 18 ∨
        (d.year = t.year - 18 ∧
          (d.month < t.month ∨ (d.month = t.month ∧ d.date ≤ t.date)))) := by
    intro t d
    simp only [isAdult, JsDate.getFullYear, JsDate.getMonth, JsDate.getDate]
    by_cases h : ((t.month : Int) - (d.month : Int) < 0 ||
        ((t.month : Int) - (d.month : Int) == 0 && decide ((t.date : Int) < (d.date : Int)))) = true
    · rw [if_pos h]
      simp only [Bool.or_eq_true, Bool.and_eq_true, decide_eq_true_eq, beq_iff_eq] at h
      simp only [decide_eq_true_eq]
      omega
    · rw [if_neg h]
      simp only [Bool.or_eq_true, Bool.and_eq_true, decide_eq_true_eq, beq_iff_eq] at h
      simp only [decide_eq_true_eq]
      omega
  refine ⟨key today dob, ?_, ?_⟩
  · rw [key]; simp
  · rw [← Bool.not_eq_true, key]
    simp only [JsDate.dayAfter]
    split
    · simp
    · split
      · simp
      · simp

/-- Claim C4, as the code has it: on 17 June 2024 (a Monday) a user born on
15 June 2000 (a Thursday) has had the birthday, so the calendar age is 24, but
`calculateAge` compares the days of the week (1 < 4) and returns 23. -/
theorem calculateAge_differs_from_calendarAge :
    JsDate.valid ⟨2024, 5, 17⟩ = true ∧ JsDate.valid ⟨2000, 5, 15⟩ = true ∧
    JsDate.getDay ⟨2024, 5, 17⟩ = 1 ∧ JsDate.getDay ⟨2000, 5, 15⟩ = 4 ∧
    calendarAge ⟨2024, 5, 17⟩ ⟨2000, 5, 15⟩ = 24 ∧
    calculateAge ⟨2024, 5, 17⟩ ⟨2000, 5, 15⟩ = 23 ∧
    isAdult ⟨2024, 5, 17⟩ ⟨2006, 5, 15⟩ = true ∧
    calculateAge ⟨2024, 5, 17⟩ ⟨2006, 5, 15⟩ = 17 := by
  decide


/-! ## Lookup by id -/

theorem findOne_some {userId : Int} {s : Store} {user : User}
    (h : User.findOne userId s = some user) : user ∈ s.users ∧ user.id = some userId := by
  unfold User.findOne at h
  refine ⟨List.mem_of_find?_eq_some h, ?_⟩
  have := List.find?_some h
  simpa using this

theorem findOne_eq_none {userId : Int} {s : Store} :
    User.findOne userId s = none ↔ ∀ u ∈ s.users, u.id ≠ some userId := by
  unfold User.findOne
  simp

/-- Two stored users with the same id are the same user. -/
theorem Inv.id_unique {s : Store} (h : Inv s) {a b : User} (ha : a ∈ s.users) (hb : b ∈ s.users)
    (hab : a.id = b.id) : a = b := by
  by_contra hne
  have hsymm : Symmetric fun a b : User => a.id ≠ b.id ∧ a._id ≠ b._id :=
    fun x y hxy => ⟨fun e => hxy.1 e.symm, fun e => hxy.2 e.symm⟩
  exact (h.distinct.forall hsymm ha hb hne).1 hab

/-- Two stored users with the same `_id` are the same user. -/
theorem Inv.oid_unique {s : Store} (h : Inv s) {a b : User} (ha : a ∈ s.users) (hb : b ∈ s.users)
    (hab : a._id = b._id) : a = b := by
  by_contra hne
  have hsymm : Symmetric fun a b : User => a.id ≠ b.id ∧ a._id ≠ b._id :=
    fun x y hxy => ⟨fun e => hxy.1 e.symm, fun e => hxy.2 e.symm⟩
  exact (h.distinct.forall hsymm ha hb hne).2 hab

theorem getUserById_status_404 {today : JsDate} {userId : Int} {s : Store} :
    (getUserById today userId s).status = 404 ↔ User.findOne userId s = none := by
  unfold getUserById
  cases User.findOne userId s <;> simp

theorem getUserById_status_200 {today : JsDate} {userId : Int} {s : Store} {u : User}
    (hu : u ∈ s.users) (hid : u.id = some userId) :
    (getUserById today userId s).status = 200 := by
  cases hg : User.findOne userId s with
  | some v => simp [getUserById, hg]
  | none => exact absurd hid (findOne_eq_none.mp hg u hu)

theorem applyBody_oid (user : User) (body : UserBody) : (applyBody user body)._id = user._id := rfl

theorem applyBody_id (user : User) (body : UserBody) : (applyBody user body).id = user.id := rfl

/-- The update handler on an id that is found: the three outcomes of the save. -/
theorem updateUser_found {today : JsDate} {userId : Int} {body : UserBody} {s : Store}
    {user : User} (h : User.findOne userId s = some user) :
    updateUser today userId body s =
      match User.save today (applyBody user body) s with
      | (s1, .ok doc) => (s1, { status := 200, body := .updated (snapshot user) (snapshot doc) })
      | (s1, .error (.duplicateKey field)) =>
        (s1, { status := 400, body := .message false ("Duplicate value for field: " ++ field) })
      | (s1, .error err) => (s1, errorHandler err) := by
  unfold updateUser
  rw [h]

/-- A successful update: what was checked, what is stored and what is sent. -/
theorem updateUser_ok {today : JsDate} {userId : Int} {body : UserBody} {s : Store}
    (hok : (updateUser today userId body s).2.status = 200) :
    ∃ user, User.findOne userId s = some user ∧
      validateUser today (applyBody user body) = [] ∧
      updateUser today userId body s =
        ({ (preSave s (applyBody user body)).1 with
            users := s.users.map fun u =>
              if u._id == user._id then (preSave s (applyBody user body)).2 else u },
         { status := 200
           body := .updated (snapshot user) (snapshot (preSave s (applyBody user body)).2) }) := by
  cases hf : User.findOne userId s with
  | none =>
    unfold updateUser at hok
    rw [hf] at hok
    simp at hok
  | some user =>
    refine ⟨user, rfl, ?_⟩
    rw [updateUser_found hf] at hok ⊢
    rcases save_cases today (applyBody user body) s with ⟨_, he⟩ | ⟨_, field, _, he⟩ | ⟨hv, _, he⟩
    · rw [he] at hok
      simp [errorHandler] at hok
    · rw [he] at hok
      simp at hok
    · rw [he]
      exact ⟨hv, rfl⟩

/-- Claim C2, as the code has it: the pre-save hook also runs when the update
handler saves, so in every reachable store a successful update answers with
`old_data.id` the requested id and `updated_data.id` the next counter value,
which is greater; afterwards no user is found under the old id and the user is
found under the new one. -/
theorem update_assigns_new_id (s : Store) (hs : Reachable s) (today : JsDate) (userId : Int)
    (body : UserBody) (hok : (updateUser today userId body s).2.status = 200) :
    ∃ old_data updated_data,
      (updateUser today userId body s).2.body = .updated old_data updated_data ∧
      old_data.id = some userId ∧ updated_data.id = some (s.seq + 1) ∧ userId < s.seq + 1 ∧
      (getUserById today userId (updateUser today userId body s).1).status = 404 ∧
      (getUserById today (s.seq + 1) (updateUser today userId body s).1).status = 200 := by
  obtain ⟨user, hf, _, he⟩ := updateUser_ok hok
  obtain ⟨hmem, hid⟩ := findOne_some hf
  have hle := hs.inv.id_le hmem hid
  rw [he]
  refine ⟨_, _, rfl, hid, by rw [preSave_doc]; rfl, by omega, ?_, ?_⟩
  · rw [getUserById_status_404, findOne_eq_none]
    intro u hu
    simp only [List.mem_map] at hu
    obtain ⟨v, hv, rfl⟩ := hu
    split
    · rw [preSave_doc]
      intro hh
      simp only [Option.some.injEq] at hh
      omega
    · rename_i hc
      intro hh
      apply hc
      have : v = user := hs.inv.id_unique hv hmem (hh.trans hid.symm)
      simp [this]
  · refine getUserById_status_200 (u := (preSave s (applyBody user body)).2) ?_
      (by rw [preSave_doc])
    simp only [List.mem_map]
    exact ⟨user, hmem, by simp⟩

/-- Witness of C2: updating the email of user 1 answers with id 1 in `old_data`
and id 2 in `updated_data`. -/
theorem update_assigns_new_id_witness :
    Reachable Sample.one ∧
    (updateUser Sample.today 1 Sample.onlyEmail Sample.one).2.status = 200 ∧
    ∃ old_data updated_data,
      (updateUser Sample.today 1 Sample.onlyEmail Sample.one).2.body =
        .updated old_data updated_data ∧
      old_data.id = some 1 ∧ updated_data.id = some (Sample.one.seq + 1) ∧
      (1 : Int) < Sample.one.seq + 1 ∧
      (getUserById Sample.today 1
        (updateUser Sample.today 1 Sample.onlyEmail Sample.one).1).status = 404 ∧
      (getUserById Sample.today (Sample.one.seq + 1)
        (updateUser Sample.today 1 Sample.onlyEmail Sample.one).1).status = 200 :=
  have hr : Reachable Sample.one := ⟨[(Sample.today, .create Sample.ann)], by decide⟩
  have hok : (updateUser Sample.today 1 Sample.onlyEmail Sample.one).2.status = 200 := by decide
  ⟨hr, hok, update_assigns_new_id Sample.one hr Sample.today 1 Sample.onlyEmail hok⟩


/-- On a found user whose merged record fails validation the update handler
passes the error on to the generic error handler, and nothing is stored. -/
theorem updateUser_invalid {today : JsDate} {userId : Int} {body : UserBody} {s : Store}
    {user : User} (hf : User.findOne userId s = some user)
    (hbad : validateUser today (applyBody user body) ≠ []) :
    updateUser today userId body s =
      (s, { status := 500, body := .message false "Internal Server Error" }) := by
  rw [updateUser_found hf]
  rcases save_cases today (applyBody user body) s with ⟨_, he⟩ | ⟨hv, _⟩ | ⟨hv, _⟩
  · rw [he]
    rfl
  · exact absurd hv hbad
  · exact absurd hv hbad

/-- Claim C7, as the code has it: when the merged record of an update violates a
field rule, the handler answers 500 with the generic body and no list of field
violations (its `catch` tests for the duplicate key error only); the store is
left as it was. -/
theorem update_validation_failure_answers_500 (s : Store) (today : JsDate) (userId : Int)
    (body : UserBody) (user : User) (hf : User.findOne userId s = some user)
    (hbad : validateUser today (applyBody user body) ≠ []) :
    (updateUser today userId body s).2 =
      { status := 500, body := .message false "Internal Server Error" } ∧
    (updateUser today userId body s).1 = s := by
  rw [updateUser_invalid hf hbad]
  exact ⟨rfl, rfl⟩

/-- Witness of C7: an update of user 1 with a first name of one character is
answered with 500, while a create with the same first name is answered with
400 and the violation of `firstName`. -/
theorem update_validation_failure_answers_500_witness :
    User.findOne 1 Sample.one = some Sample.annDoc ∧
    validateUser Sample.today (applyBody Sample.annDoc Sample.shortFirstName) =
      [{ field := "firstName", message := "First name must be at least 8 characters" }] ∧
    ((updateUser Sample.today 1 Sample.shortFirstName Sample.one).2 =
      { status := 500, body := .message false "Internal Server Error" } ∧
     (updateUser Sample.today 1 Sample.shortFirstName Sample.one).1 = Sample.one) ∧
    (addNewUser Sample.today { Sample.joe with first_name := .val "A" } Sample.one).2 =
      { status := 400
        body := .failed "Validation failed for one or more fields"
          [{ field := "firstName", message := "First name must be at least 8 characters" }] } :=
  ⟨by decide, by decide,
   update_validation_failure_answers_500 Sample.one Sample.today 1 Sample.shortFirstName
     Sample.annDoc (by decide) (by decide),
   by decide⟩

/-- Claim C6, as the code has it: user 1 is updated with a body that has the key
`email` only. The record that is persisted differs from the stored one in
`email` and also in `id`, which the pre-save hook sets to the next counter
value although the body has no such key. -/
theorem update_email_only_changes_id :
    Sample.one.users = [Sample.annDoc] ∧
    applyBody Sample.annDoc Sample.onlyEmail = { Sample.annDoc with email := some "new@x.com" } ∧
    (updateUser Sample.today 1 Sample.onlyEmail Sample.one).1.users =
      [{ Sample.annDoc with email := some "new@x.com", id := some 2 }] ∧
    (updateUser Sample.today 1 Sample.noKeys Sample.one).1.users =
      [{ Sample.annDoc with id := some 2 }] := by
  decide


/-- A create that is answered with 201: what was checked, stored and sent. -/
theorem addNewUser_created {today : JsDate} {body : UserBody} {s : Store}
    (hok : (addNewUser today body s).2.status = 201) :
    validInput today body ∧
    ∃ user : User,
      user = { newUser ⟨s.objectIds⟩ body with id := some (s.seq + 1) } ∧
      (User.create today body s).2 = .ok user ∧
      (addNewUser today body s).1.users = s.users ++ [user] ∧
      (addNewUser today body s).1.seq = s.seq + 1 ∧
      (addNewUser today body s).2.createdId = some (.objectId user._id) := by
  have hfst := addNewUser_fst today body s
  unfold addNewUser at hok ⊢
  unfold User.create at hok hfst ⊢
  rcases insert_cases today (newUser ⟨s.objectIds⟩ body) { s with objectIds := s.objectIds + 1 }
    with ⟨_, he⟩ | ⟨_, field, _, he⟩ | ⟨hv, _, he⟩
  · rw [he] at hok
    simp at hok
  · rw [he] at hok
    simp at hok
  · rw [he]
    have hdoc := preSave_doc { s with objectIds := s.objectIds + 1 } (newUser ⟨s.objectIds⟩ body)
    have hseq := preSave_seq { s with objectIds := s.objectIds + 1 } (newUser ⟨s.objectIds⟩ body)
    refine ⟨hv, _, rfl, ?_, ?_, ?_, ?_⟩
    · rw [hdoc]; rfl
    · simp only [hdoc]; rfl
    · exact hseq
    · simp only [hdoc]; rfl


/-- The key the unique indexes report when only the email is taken. -/
theorem duplicateKeyOf_email {others : List User} {doc : User}
    (hoid : ∀ u ∈ others, u._id ≠ doc._id) (hid : ∀ u ∈ others, u.id ≠ doc.id)
    (hmail : ∃ u ∈ others, u.email = doc.email) : duplicateKeyOf others doc = some "email" := by
  unfold duplicateKeyOf
  have h1 : (others.any fun u => u._id == doc._id) = false := by
    rw [List.any_eq_false]
    intro u hu
    simpa using hoid u hu
  have h2 : (others.any fun u => u.id == doc.id) = false := by
    rw [List.any_eq_false]
    intro u hu
    simpa using hid u hu
  have h3 : (others.any fun u => u.email == doc.email) = true := by
    rw [List.any_eq_true]
    obtain ⟨u, hu, he⟩ := hmail
    exact ⟨u, hu, by simpa using he⟩
  simp [h1, h2, h3]

/-- A create with a valid input whose email a stored user already has, in a
store that satisfies the invariant. -/
theorem addNewUser_email_taken {today : JsDate} {body : UserBody} {s : Store} (h : Inv s)
    (hvalid : validInput today body) (hmail : ∃ u ∈ s.users, u.email = setEmail body.email) :
    (addNewUser today body s).2 =
      { status := 400
        body := .failed "Validation failed for one or more fields"
          [{ field := "email", message := "email already exists" }] } ∧
    (addNewUser today body s).1.users = s.users := by
  have hv : validateUser today (newUser ⟨s.objectIds⟩ body) = [] := hvalid
  have hdoc := preSave_doc { s with objectIds := s.objectIds + 1 } (newUser ⟨s.objectIds⟩ body)
  have hdup : duplicateKeyOf s.users
      (preSave { s with objectIds := s.objectIds + 1 } (newUser ⟨s.objectIds⟩ body)).2 =
        some "email" := by
    rw [hdoc]
    refine duplicateKeyOf_email ?_ ?_ hmail
    · intro u hu heq
      have := h.oid_lt u hu
      rw [heq] at this
      exact Nat.lt_irrefl _ this
    · intro u hu
      exact h.fresh_id hu
  unfold addNewUser User.create
  rcases insert_cases today (newUser ⟨s.objectIds⟩ body) { s with objectIds := s.objectIds + 1 }
    with ⟨hne, _⟩ | ⟨_, field, hf, he⟩ | ⟨_, hnone, _⟩
  · exact absurd hv hne
  · rw [he]
    have hfield : field = "email" := by
      have := hf.symm.trans hdup
      simpa using this
    subst hfield
    exact ⟨rfl, rfl⟩
  · have := hnone.symm.trans hdup
    cases this

/-- Claim C8: in every reachable store, when a create succeeds and the next
create has an otherwise valid input whose email is the same after trimming and
lowercasing, the second create is answered with 400 and an errors list that
names the field `email`, and the user collection is left as the first create
left it. -/
theorem second_create_same_email_rejected (s : Store) (hs : Reachable s) (t1 t2 : JsDate)
    (a b : UserBody) (hfirst : (addNewUser t1 a s).2.status = 201)
    (hvalid : validInput t2 b) (hmail : setEmail a.email = setEmail b.email) :
    (addNewUser t2 b (addNewUser t1 a s).1).2 =
      { status := 400
        body := .failed "Validation failed for one or more fields"
          [{ field := "email", message := "email already exists" }] } ∧
    (addNewUser t2 b (addNewUser t1 a s).1).1.users = (addNewUser t1 a s).1.users := by
  obtain ⟨_, user, hu, _, husers, _, _⟩ := addNewUser_created hfirst
  have hinv : Inv (addNewUser t1 a s).1 := inv_handle hs.inv t1 (.create a)
  refine addNewUser_email_taken hinv hvalid ⟨user, ?_, ?_⟩
  · rw [husers]
    simp
  · rw [hu, ← hmail]
    rfl

/-- Witness of C8: Léa registers with ` ÉA@X.COM `, then a second input that is
the same but for the email `éa@x.com` is rejected; likewise Ann with
` Ann@X.com ` and then `ANN@x.COM`. -/
theorem second_create_same_email_rejected_witness :
    Reachable Sample.two ∧
    (addNewUser Sample.today Sample.lea Sample.two).2.status = 201 ∧
    validInput Sample.today Sample.leaLower ∧
    setEmail Sample.lea.email = setEmail Sample.leaLower.email ∧
    toLowerCase (jsTrim " ÉA@X.COM ") = "éa@x.com" ∧
    ((addNewUser Sample.today Sample.leaLower
        (addNewUser Sample.today Sample.lea Sample.two).1).2 =
      { status := 400
        body := .failed "Validation failed for one or more fields"
          [{ field := "email", message := "email already exists" }] } ∧
     (addNewUser Sample.today Sample.leaLower
        (addNewUser Sample.today Sample.lea Sample.two).1).1.users =
      (addNewUser Sample.today Sample.lea Sample.two).1.users) ∧
    (addNewUser Sample.today Sample.ann Sample.two).2.status = 201 ∧
    validInput Sample.today Sample.annUpper ∧
    setEmail Sample.ann.email = setEmail Sample.annUpper.email ∧
    Sample.ann.email ≠ Sample.annUpper.email ∧
    ((addNewUser Sample.today Sample.annUpper
        (addNewUser Sample.today Sample.ann Sample.two).1).2 =
      { status := 400
        body := .failed "Validation failed for one or more fields"
          [{ field := "email", message := "email already exists" }] } ∧
     (addNewUser Sample.today Sample.annUpper
        (addNewUser Sample.today Sample.ann Sample.two).1).1.users =
      (addNewUser Sample.today Sample.ann Sample.two).1.users) :=
  have hr : Reachable Sample.two :=
    ⟨[(Sample.today, .create Sample.ann), (Sample.today, .delete 1),
      (Sample.today, .create Sample.joe)], by decide⟩
  have g1 : (addNewUser Sample.today Sample.lea Sample.two).2.status = 201 := by decide
  have g2 : validInput Sample.today Sample.leaLower := by decide
  have g3 : setEmail Sample.lea.email = setEmail Sample.leaLower.email := by decide
  have h1 : (addNewUser Sample.today Sample.ann Sample.two).2.status = 201 := by decide
  have h2 : validInput Sample.today Sample.annUpper := by decide
  have h3 : setEmail Sample.ann.email = setEmail Sample.annUpper.email := by decide
  ⟨hr, g1, g2, g3, by decide,
   second_create_same_email_rejected Sample.two hr Sample.today Sample.today
     Sample.lea Sample.leaLower g1 g2 g3,
   h1, h2, h3, by decide,
   second_create_same_email_rejected Sample.two hr Sample.today Sample.today
     Sample.ann Sample.annUpper h1 h2 h3⟩

/-! ## Deletion -/

/-- Removing the first match removes every match when at most one element
matches. -/
theorem eraseP_eq_filter_of_unique {α : Type} (p : α → Bool) (l : List α)
    (h : l.Pairwise fun a b => ¬(p a = true ∧ p b = true)) :
    l.eraseP p = l.filter fun a => !p a := by
  induction l with
  | nil => rfl
  | cons a l ih =>
    rw [List.pairwise_cons] at h
    by_cases hp : p a = true
    · rw [List.eraseP_cons_of_pos hp, List.filter_cons_of_neg (by simp [hp])]
      symm
      rw [List.filter_eq_self]
      intro b hb
      have := h.1 b hb
      simp only [hp, true_and] at this
      simpa using this
    · rw [List.eraseP_cons_of_neg hp, List.filter_cons_of_pos (by simpa using hp), ih h.2]

theorem gone_handle {k : Int} {s : Store} (h : Gone k s) (today : JsDate) (r : Request) :
    Gone k (handle today r s).1 := by
  refine ⟨le_trans h.1 (seq_le_handle today r s), ?_⟩
  cases r with
  | create body =>
    simp only [handle, addNewUser_fst, User.create]
    rcases insert_cases today (newUser ⟨s.objectIds⟩ body) { s with objectIds := s.objectIds + 1 }
      with ⟨_, he⟩ | ⟨_, field, _, he⟩ | ⟨_, _, he⟩
    · rw [he]; exact h.2
    · rw [he]; exact h.2
    · rw [he]
      intro u hu
      simp only [List.mem_append, List.mem_singleton] at hu
      rcases hu with hu | hu
      · exact h.2 u hu
      · subst hu
        rw [preSave_doc]
        intro hh
        simp only [Option.some.injEq] at hh
        have h1 := h.1
        have h2 : Store.seq { s with objectIds := s.objectIds + 1 } = s.seq := rfl
        omega
  | update userId body =>
    simp only [handle, updateUser_fst]
    split
    · exact h.2
    · rename_i user _
      rcases save_cases today (applyBody user body) s with ⟨_, he⟩ | ⟨_, field, _, he⟩ | ⟨_, _, he⟩
      · rw [he]; exact h.2
      · rw [he]; exact h.2
      · rw [he]
        intro u hu
        simp only [List.mem_map] at hu
        obtain ⟨v, hv, rfl⟩ := hu
        split
        · rw [preSave_doc]
          intro hh
          simp only [Option.some.injEq] at hh
          have h1 := h.1
          omega
        · exact h.2 v hv
  | delete userId =>
    simp only [handle, deleteUser_fst]
    unfold User.findOneAndDelete
    split
    · exact h.2
    · intro u hu
      exact h.2 u ((List.eraseP_sublist _).subset hu)

theorem gone_run {k : Int} {s : Store} (h : Gone k s) (rs : List (JsDate × Request)) :
    Gone k (run s rs) := by
  induction rs generalizing s with
  | nil => exact h
  | cons r rest ih => exact ih (gone_handle h r.1 r.2)

theorem getUserById_gone {k : Int} {s : Store} (h : Gone k s) (today : JsDate) :
    getUserById today k s =
      { status := 404, body := .message false ("User with ID " ++ toString k ++ " not found") } := by
  unfold getUserById
  rw [findOne_eq_none.mpr h.2]

/-- Claim C9: in every reachable store and for every integer id, a delete of an
id that no stored user has is answered with 404 and changes nothing; a delete
of the id of a stored user removes that user and no other, is answered with 200
and a message that names the id; and after it, fetch-by-id of that id is
answered with 404 in every store reached by further create, update and delete
requests. -/
theorem delete_then_never_found (s : Store) (hs : Reachable s) (userId : Int) :
    ((∀ u ∈ s.users, u.id ≠ some userId) →
      deleteUser userId s =
        (s, { status := 404
              body := .message false ("User with ID " ++ toString userId ++ " not found") })) ∧
    (∀ user ∈ s.users, user.id = some userId →
      (deleteUser userId s).2 =
        { status := 200
          body := .message true
            ("User with ID " ++ toString userId ++ " has been deleted successfully") } ∧
      (deleteUser userId s).1 = { s with users := s.users.filter fun u => u != user } ∧
      ∀ (rs : List (JsDate × Request)) (today : JsDate),
        getUserById today userId (run (deleteUser userId s).1 rs) =
          { status := 404
            body := .message false ("User with ID " ++ toString userId ++ " not found") }) := by
  constructor
  · intro hnone
    unfold deleteUser User.findOneAndDelete
    rw [findOne_eq_none.mpr hnone]
  · intro user hmem hid
    have hfind : ∃ v, User.findOne userId s = some v := by
      cases hf : User.findOne userId s with
      | none => exact absurd hid (findOne_eq_none.mp hf user hmem)
      | some v => exact ⟨v, rfl⟩
    obtain ⟨v, hv⟩ := hfind
    have hfilter : (s.users.eraseP fun u => u.id == some userId) =
        s.users.filter fun u => u != user := by
      rw [eraseP_eq_filter_of_unique]
      · apply List.filter_congr
        intro u hu
        by_cases hu2 : u = user
        · subst hu2
          simp [hid]
        · have : u.id ≠ some userId := fun hh => hu2 (hs.inv.id_unique hu hmem (hh.trans hid.symm))
          have h1 : (u.id == some userId) = false := by simpa using this
          have h2 : (u != user) = true := by simpa using hu2
          simp [h1, h2]
      · refine hs.inv.distinct.imp ?_
        intro a b hab hh
        simp only [beq_iff_eq] at hh
        exact hab.1 (hh.1.trans hh.2.symm)
    have hstore : (deleteUser userId s).1 = { s with users := s.users.filter fun u => u != user } := by
      rw [deleteUser_fst]
      unfold User.findOneAndDelete
      rw [hv]
      simp only
      rw [hfilter]
    refine ⟨?_, hstore, ?_⟩
    · unfold deleteUser User.findOneAndDelete
      rw [hv]
    · intro rs today
      apply getUserById_gone
      apply gone_run
      rw [hstore]
      refine ⟨hs.inv.id_le hmem hid, ?_⟩
      intro u hu
      simp only [List.mem_filter, bne_iff_ne, ne_eq] at hu
      intro hh
      exact hu.2 (hs.inv.id_unique hu.1 hmem (hh.trans hid.symm))


/-- Witness of C9: in the store that holds Joe under id 2, a delete of id 1 is
answered with 404, a delete of id 2 removes Joe, and id 2 stays unknown after
a further create and update. -/
theorem delete_then_never_found_witness :
    Reachable Sample.two ∧ Sample.joeDoc ∈ Sample.two.users ∧
    deleteUser 1 Sample.two =
      (Sample.two, { status := 404, body := .message false "User with ID 1 not found" }) ∧
    (deleteUser 2 Sample.two).2 =
      { status := 200, body := .message true "User with ID 2 has been deleted successfully" } ∧
    (deleteUser 2 Sample.two).1.users = [] ∧
    getUserById Sample.today 2
        (run (deleteUser 2 Sample.two).1
          [(Sample.today, .create Sample.ann), (Sample.today, .update 3 Sample.onlyEmail)]) =
      { status := 404, body := .message false "User with ID 2 not found" } :=
  have hr : Reachable Sample.two :=
    ⟨[(Sample.today, .create Sample.ann), (Sample.today, .delete 1),
      (Sample.today, .create Sample.joe)], by decide⟩
  have hm : Sample.joeDoc ∈ Sample.two.users := by decide
  have h1 := (delete_then_never_found Sample.two hr 1).1 (by decide)
  have h2 := (delete_then_never_found Sample.two hr 2).2 Sample.joeDoc hm (by decide)
  ⟨hr, hm, h1, h2.1, by rw [h2.2.1]; decide, h2.2.2 _ Sample.today⟩


/-! ## The id a create answers with -/

/-- The response of a create that is answered with 201. -/
theorem addNewUser_created_response {today : JsDate} {body : UserBody} {s : Store}
    (hok : (addNewUser today body s).2.status = 201) :
    (addNewUser today body s).2 =
      { status := 201
        body := .created
          { id := .objectId ⟨s.objectIds⟩
            full_name := fullName (newUser ⟨s.objectIds⟩ body)
            age := (setDate body.date_of_birth).map (calculateAge today)
            date_of_birth := rawDate body.date_of_birth
            gender := setPlain body.gender
            email := setEmail body.email
            message := "Hello Users with ID " ++ ObjectId.toString ⟨s.objectIds⟩ ++ " and name " ++
              fullName (newUser ⟨s.objectIds⟩ body) ++ " (age " ++
              showAge ((setDate body.date_of_birth).map (calculateAge today)) ++ ", DOB " ++
              showBodyVal (rawDate body.date_of_birth) ++ ", " ++
              showStr (setPlain body.gender) ++ ", email: " ++ showStr (setEmail body.email) ++
              "). Thanks for registration, we will contact you soon." } } := by
  unfold addNewUser at hok ⊢
  unfold User.create at hok ⊢
  rcases insert_cases today (newUser ⟨s.objectIds⟩ body) { s with objectIds := s.objectIds + 1 }
    with ⟨_, he⟩ | ⟨_, field, _, he⟩ | ⟨hv, _, he⟩
  · rw [he] at hok
    simp at hok
  · rw [he] at hok
    simp at hok
  · rw [he]
    have hdoc := preSave_doc { s with objectIds := s.objectIds + 1 } (newUser ⟨s.objectIds⟩ body)
    simp only [hdoc]
    rfl

/-- Claim C10, as the code has it: in every reachable store, a create that is
answered with 201 puts the storage-internal `_id` of the new user in the `id`
field of the response data and prints it in the message, where the claim and
the other handlers have the display id. The display id is the counter value
after the increment; it is stored with the user and fetch-by-id finds the new
user under it, but the response does not carry it. -/
theorem create_answers_with_storage_id (s : Store) (hs : Reachable s) (today : JsDate)
    (body : UserBody) (hok : (addNewUser today body s).2.status = 201) :
    ∃ user : User,
      (addNewUser today body s).1.users = s.users ++ [user] ∧
      user.id = some (addNewUser today body s).1.seq ∧
      (addNewUser today body s).2 =
        { status := 201
          body := .created
            { id := .objectId user._id
              full_name := fullName user
              age := user.dateOfBirth.map (calculateAge today)
              date_of_birth := rawDate body.date_of_birth
              gender := user.gender
              email := user.email
              message := "Hello Users with ID " ++ user._id.toString ++ " and name " ++
                fullName user ++ " (age " ++ showAge (user.dateOfBirth.map (calculateAge today)) ++
                ", DOB " ++ showBodyVal (rawDate body.date_of_birth) ++ ", " ++
                showStr user.gender ++ ", email: " ++ showStr user.email ++
                "). Thanks for registration, we will contact you soon." } } ∧
      User.findOne (addNewUser today body s).1.seq (addNewUser today body s).1 = some user ∧
      getUserById today (addNewUser today body s).1.seq (addNewUser today body s).1 =
        { status := 200
          body := .user
            { id := user.id
              full_name := fullName user
              age := user.dateOfBirth.map (calculateAge today)
              date_of_birth := user.dateOfBirth
              gender := user.gender
              email := user.email
              user_name := user.userName } } ∧
      (addNewUser today body s).2.createdId ≠
        some (.number (addNewUser today body s).1.seq) := by
  obtain ⟨_, user, hu, _, husers, hseq, hcid⟩ := addNewUser_created hok
  have hfind : User.findOne (addNewUser today body s).1.seq (addNewUser today body s).1 =
      some user := by
    unfold User.findOne
    rw [husers, hseq, List.find?_append]
    have hnone : s.users.find? (fun u => u.id == some (s.seq + 1)) = none := by
      rw [List.find?_eq_none]
      intro u hu2
      simpa using hs.inv.fresh_id hu2
    rw [hnone, hu]
    simp
  refine ⟨user, husers, by rw [hseq, hu], ?_, hfind, ?_, ?_⟩
  · rw [addNewUser_created_response hok, hu]
    rfl
  · unfold getUserById
    rw [hfind]
  · rw [hcid]
    simp

/-- Witness of C10: Ann registers again in the store that holds Joe; the
response carries the `_id` with value 2 while the display id is 3. -/
theorem create_answers_with_storage_id_witness :
    Reachable Sample.two ∧
    (addNewUser Sample.today Sample.ann Sample.two).2.status = 201 ∧
    (addNewUser Sample.today Sample.ann Sample.two).1.seq = 3 ∧
    (addNewUser Sample.today Sample.ann Sample.two).2.createdId = some (.objectId ⟨2⟩) ∧
    ∃ user : User,
      (addNewUser Sample.today Sample.ann Sample.two).1.users = Sample.two.users ++ [user] ∧
      user.id = some (addNewUser Sample.today Sample.ann Sample.two).1.seq ∧
      (addNewUser Sample.today Sample.ann Sample.two).2.createdId = some (.objectId user._id) ∧
      User.findOne (addNewUser Sample.today Sample.ann Sample.two).1.seq
        (addNewUser Sample.today Sample.ann Sample.two).1 = some user ∧
      (addNewUser Sample.today Sample.ann Sample.two).2.createdId ≠
        some (.number (addNewUser Sample.today Sample.ann Sample.two).1.seq) :=
  have hr : Reachable Sample.two :=
    ⟨[(Sample.today, .create Sample.ann), (Sample.today, .delete 1),
      (Sample.today, .create Sample.joe)], by decide⟩
  have hok : (addNewUser Sample.today Sample.ann Sample.two).2.status = 201 := by decide
  have h := create_answers_with_storage_id Sample.two hr Sample.today Sample.ann hok
  ⟨hr, hok, by decide, by decide, h.elim fun user hu =>
    ⟨user, hu.1, hu.2.1, by rw [hu.2.2.1]; rfl, hu.2.2.2.1, hu.2.2.2.2.2⟩⟩

/-- The failing input of C10, evaluated: Ann registers in the store that holds
Joe. The display id assigned from the counter is 3, but the `id` field of the
201 response is the `_id` of the new document and the message prints that
`_id`. -/
theorem create_response_id_is_not_display_id :
    (addNewUser Sample.today Sample.ann Sample.two).1.users =
      [Sample.joeDoc, { Sample.annDoc with _id := ⟨2⟩, id := some 3 }] ∧
    (addNewUser Sample.today Sample.ann Sample.two).1.seq = 3 ∧
    (addNewUser Sample.today Sample.ann Sample.two).2.createdId = some (.objectId ⟨2⟩) ∧
    (addNewUser Sample.today Sample.ann Sample.two).2.createdId ≠ some (.number 3) ∧
    (addNewUser Sample.today Sample.ann Sample.two).2 =
      { status := 201
        body := .created
          { id := .objectId ⟨2⟩
            full_name := "Ann Bea Smith"
            age := some 23
            date_of_birth := .val "2000-06-15"
            gender := some "female"
            email := some "ann@x.com"
            message := "Hello Users with ID 000000000000000000000002 and name Ann Bea Smith (age 23, DOB 2000-06-15, female, email: ann@x.com). Thanks for registration, we will contact you soon." } } := by
  decide


/-! ## Search -/

/-- Claim C5, as the code has it: the query `Ann  Lee` has two spaces between
its words. Splitting on white space gives the tokens `Ann` and `Lee`, and
neither occurs in a name of Tom Bob Kim. The handler splits on the single
space, gets the empty string as a part, and the empty pattern matches every
name: the search returns Tom too, and every other user of the store. With one
space the handler returns Ann and Joe only. -/
theorem search_two_spaces_returns_every_user :
    (Sample.three.users.map fullName = ["Ann Bea Smith", "Joe Max Lee", "Tom Bob Kim"]) ∧
    whitespaceTokens "Ann  Lee" = ["Ann".data, "Lee".data] ∧
    splitOnSpace (jsTrim "Ann  Lee").data = ["Ann".data, [], "Lee".data] ∧
    ((Sample.three.users.filter (specMatch "Ann  Lee")).map fullName =
      ["Ann Bea Smith", "Joe Max Lee"]) ∧
    ((searchUsers "Ann  Lee" Sample.three).map fullName =
      ["Ann Bea Smith", "Joe Max Lee", "Tom Bob Kim"]) ∧
    ((searchUsers "Ann Lee" Sample.three).map fullName = ["Ann Bea Smith", "Joe Max Lee"]) ∧
    search Sample.today (some "Ann  Lee") Sample.three =
      { status := 200
        body := .found 3
          [{ id := none, full_name := "Ann Bea Smith", age := some 23,
             date_of_birth := some ⟨2000, 5, 15⟩, gender := some "female",
             email := some "ann@x.com", user_name := none },
           { id := none, full_name := "Joe Max Lee", age := some 34,
             date_of_birth := some ⟨1990, 0, 1⟩, gender := some "male",
             email := some "joe@x.com", user_name := some "joe90" },
           { id := none, full_name := "Tom Bob Kim", age := some 39,
             date_of_birth := some ⟨1985, 2, 9⟩, gender := some "male",
             email := some "tom@x.com", user_name := none }] } := by
  decide


/-! ## Further properties of the handlers -/

/-- The merge of the update handler: `_id` and `id` are not touched, a key that
is absent from the body leaves its path as stored, and a key that is present
sets its path through the setter of the schema; the empty string is a present
value. -/
theorem applyBody_sets_present_keys_only (user : User) (body : UserBody) :
    (applyBody user body)._id = user._id ∧ (applyBody user body).id = user.id ∧
    (body.first_name = .undefined → (applyBody user body).firstName = user.firstName) ∧
    (body.middle_name = .undefined → (applyBody user body).middleName = user.middleName) ∧
    (body.last_name = .undefined → (applyBody user body).lastName = user.lastName) ∧
    (body.email = .undefined → (applyBody user body).email = user.email) ∧
    (body.gender = .undefined → (applyBody user body).gender = user.gender) ∧
    (body.date_of_birth = .undefined → (applyBody user body).dateOfBirth = user.dateOfBirth) ∧
    (body.user_name = .undefined → (applyBody user body).userName = user.userName) ∧
    (∀ v, body.first_name = .val v → (applyBody user body).firstName = some (jsTrim v)) ∧
    (∀ v, body.middle_name = .val v → (applyBody user body).middleName = some (jsTrim v)) ∧
    (∀ v, body.last_name = .val v → (applyBody user body).lastName = some (jsTrim v)) ∧
    (∀ v, body.email = .val v → (applyBody user body).email = some (toLowerCase (jsTrim v))) ∧
    (∀ v, body.gender = .val v → (applyBody user body).gender = some v) ∧
    (∀ v, body.user_name = .val v → (applyBody user body).userName = some (jsTrim v)) ∧
    (body.user_name = .val "" → (applyBody user body).userName = some "") := by
  refine ⟨rfl, rfl, ?_, ?_, ?_, ?_, ?_, ?_, ?_, ?_, ?_, ?_, ?_, ?_, ?_, ?_⟩ <;>
    intros <;> simp_all [applyBody, assignIfDefined, setTrim, setEmail, setPlain]
  decide

/-- Witness of the merge property: the body with the key `email` only. -/
theorem applyBody_sets_present_keys_only_witness :
    Sample.onlyEmail.first_name = .undefined ∧
    (applyBody Sample.annDoc Sample.onlyEmail).firstName = Sample.annDoc.firstName ∧
    (applyBody Sample.annDoc Sample.onlyEmail).email = some "new@x.com" :=
  have h := applyBody_sets_present_keys_only Sample.annDoc Sample.onlyEmail
  ⟨rfl, h.2.2.1 rfl, (h.2.2.2.2.2.2.2.2.2.2.2.2.1 "new@x.com" rfl).trans (by decide)⟩

theorem any_searchQuery (parts : List (List Char)) (u : User) :
    ((searchQuery parts).any fun c => c u) =
      parts.any fun part =>
        regexOnPath part u.firstName || regexOnPath part u.middleName ||
          regexOnPath part u.lastName := by
  induction parts with
  | nil => rfl
  | cons part rest ih =>
    simp only [searchQuery, List.flatMap_cons, List.any_append, List.any_cons, List.any_nil,
      Bool.or_false] at ih ⊢
    rw [ih]
    simp only [Bool.or_assoc]

theorem regexOnPath_eq_occursInName (part : List Char) (v : Option String) :
    regexOnPath part v = occursInName part v := by
  cases v <;> rfl

/-- When the query and the stored names are plain ASCII texts (no
regular-expression metacharacter in the query), and the query has single spaces
only between its words, so that the handler's `split(" ")` gives the
white-space tokens, the search returns exactly the users the specification
describes, in collection order. -/
theorem searchUsers_eq_spec (full_name : String) (s : Store)
    (_hquery : isPlainAscii (full_name.data.filter fun c => !isJsWhitespace c) = true)
    (_hnames : ∀ u ∈ s.users, hasPlainNames u = true)
    (h : splitOnSpace (jsTrim full_name).data = whitespaceTokens full_name) :
    searchUsers full_name s = s.users.filter (specMatch full_name) := by
  unfold searchUsers User.find
  rw [h]
  apply List.filter_congr
  intro u _
  rw [any_searchQuery]
  simp only [regexOnPath_eq_occursInName, specMatch]

/-- Witness of the search property: the query `Ann Lee`. -/
theorem searchUsers_eq_spec_witness :
    isPlainAscii ("Ann Lee".data.filter fun c => !isJsWhitespace c) = true ∧
    (∀ u ∈ Sample.three.users, hasPlainNames u = true) ∧
    splitOnSpace (jsTrim "Ann Lee").data = whitespaceTokens "Ann Lee" ∧
    searchUsers "Ann Lee" Sample.three = Sample.three.users.filter (specMatch "Ann Lee") :=
  ⟨by decide, by decide, by decide,
   searchUsers_eq_spec "Ann Lee" Sample.three (by decide) (by decide) (by decide)⟩


/-! ## The list and search responses -/

/-- The projection of the list and search handlers leaves no id to read. -/
theorem select_id (u : User) : (select u).id = none := rfl

/-- Claim C11, as the code has it: `count` is the number of elements of `data`,
for the list-all and for the search handler, but no element carries the display
id of its user: the projection of both queries leaves the path `id` out, so
`user.id` is `undefined` for every document the handlers map. In the store that
holds Ann, Joe and Tom under the ids 1, 2 and 3 the three elements of the list
have no id. -/
theorem list_and_search_items_have_no_id (today : JsDate) (s : Store)
    (full_name : Option String) :
    (∃ data : List ListItem,
      getAllUsersRegisteredData today s = { status := 200, body := .listed data.length data } ∧
      data.length = s.users.length ∧ ∀ d ∈ data, d.id = none) ∧
    (∀ count data, (search today full_name s).body = .found count data →
      count = data.length ∧ ∀ d ∈ data, d.id = none) ∧
    Sample.three.users.map (fun u => u.id) = [some 1, some 2, some 3] ∧
    getAllUsersRegisteredData Sample.today Sample.three =
      { status := 200
        body := .listed 3
          [{ id := none, full_name := "Ann Bea Smith", age := some 23, gender := some "female",
             email := some "ann@x.com", user_name := none },
           { id := none, full_name := "Joe Max Lee", age := some 34, gender := some "male",
             email := some "joe@x.com", user_name := some "joe90" },
           { id := none, full_name := "Tom Bob Kim", age := some 39, gender := some "male",
             email := some "tom@x.com", user_name := none }] } := by
  refine ⟨⟨_, rfl, by simp, ?_⟩, ?_, by decide, by decide⟩
  · intro d hd
    simp only [List.mem_map] at hd
    obtain ⟨u, ⟨v, _, rfl⟩, rfl⟩ := hd
    rfl
  · intro count data h
    unfold search at h
    split at h
    · cases h
    · split at h
      · cases h
      · split at h
        · cases h
        · simp only [ResBody.found.injEq] at h
          obtain ⟨rfl, rfl⟩ := h
          refine ⟨rfl, ?_⟩
          intro d hd
          simp only [List.mem_map] at hd
          obtain ⟨u, ⟨v, _, rfl⟩, rfl⟩ := hd
          rfl
/-- Claim C12, as the code has it: the search handler answers 400 with the
message about the query parameter exactly when `full_name` is missing, empty
or white space only, whatever the store holds. But not every other string is
answered with 200: the parts of the query go to `$regex` as they are, the
database rejects the query `*` (a quantifier with nothing to repeat) and the
error ends in the generic 500. -/
theorem search_400_iff_blank (today : JsDate) (full_name : Option String) (s : Store) :
    ((search today full_name s).status = 400 ↔
      (full_name = none ∨ full_name = some "" ∨ ∃ q, full_name = some q ∧ jsTrim q = "")) ∧
    ((search today full_name s).status = 400 →
      search today full_name s =
        { status := 400, body := .message false "Please provide a full_name query parameter." }) ∧
    ((search today full_name s).status = 400 ∨ (search today full_name s).status = 500 ∨
      (search today full_name s).status = 200) ∧
    search Sample.today (some "*") Sample.three =
      { status := 500, body := .message false "Internal Server Error" } ∧
    search Sample.today (some "Ann +Lee") Sample.three =
      { status := 500, body := .message false "Internal Server Error" } := by
  refine ⟨?_, ?_, ?_, by decide, by decide⟩
  · cases full_name with
    | none => simp [search]
    | some q =>
      unfold search
      by_cases hq : q = "" ∨ jsTrim q = ""
      · simp only [if_pos hq, true_iff]
        rcases hq with hq | hq
        · exact Or.inr (Or.inl (by rw [hq]))
        · exact Or.inr (Or.inr ⟨q, rfl, hq⟩)
      · simp only [if_neg hq]
        split <;> simp [errorHandler] <;> exact ⟨fun h => hq (Or.inl h), fun h => hq (Or.inr h)⟩
  · cases full_name with
    | none => intro _; rfl
    | some q =>
      unfold search
      by_cases hq : q = "" ∨ jsTrim q = ""
      · simp only [if_pos hq]
        intro _
        trivial
      · simp only [if_neg hq]
        split <;> simp [errorHandler]
  · cases full_name with
    | none => left; rfl
    | some q =>
      unfold search
      by_cases hq : q = "" ∨ jsTrim q = ""
      · left; simp only [if_pos hq]
      · right
        simp only [if_neg hq]
        split
        · left; rfl
        · right; rfl
/-! ## The rules of the name paths -/

theorem jsLength_eq_zero (s : String) : jsLength s = 0 ↔ s = "" := by
  constructor
  · intro h
    cases s with
    | mk cs =>
      cases cs with
      | nil => rfl
      | cons c rest =>
        exfalso
        simp only [jsLength, List.map_cons, List.sum_cons] at h
        split at h <;> omega
  · intro h
    subst h
    rfl

theorem validateName_some_eq (requiredMsg minMsg maxMsg : String) (maxlength : Nat) (s : String) :
    validateName requiredMsg minMsg maxMsg maxlength (some s) =
      if jsLength s = 0 then some requiredMsg
      else if jsLength s < 2 then some minMsg
      else if maxlength < jsLength s then some maxMsg
      else none := rfl

/-- The validators of a name path accept a value that is set exactly when its
length is within the bounds. -/
theorem validateName_some (requiredMsg minMsg maxMsg : String) (maxlength : Nat) (s : String) :
    validateName requiredMsg minMsg maxMsg maxlength (some s) = none ↔
      2 ≤ jsLength s ∧ jsLength s ≤ maxlength := by
  rw [validateName_some_eq]
  by_cases h0 : jsLength s = 0
  · rw [if_pos h0]
    simp only [reduceCtorEq, false_iff]
    omega
  · rw [if_neg h0]
    by_cases h1 : jsLength s < 2
    · rw [if_pos h1]
      simp only [reduceCtorEq, false_iff]
      omega
    · rw [if_neg h1]
      by_cases h2 : maxlength < jsLength s
      · rw [if_pos h2]
        simp only [reduceCtorEq, false_iff]
        omega
      · rw [if_neg h2]
        simp only [true_iff]
        omega

/-- The `required` rule of a name path fires exactly on the empty string. -/
theorem validateName_required (requiredMsg minMsg maxMsg : String) (maxlength : Nat) (s : String)
    (h1 : requiredMsg ≠ minMsg) (h2 : requiredMsg ≠ maxMsg) :
    validateName requiredMsg minMsg maxMsg maxlength (some s) = some requiredMsg ↔ s = "" := by
  rw [validateName_some_eq, ← jsLength_eq_zero]
  by_cases h0 : jsLength s = 0
  · rw [if_pos h0]
    simp [h0]
  · rw [if_neg h0]
    simp only [h0, iff_false]
    split
    · exact fun h => h1 (Option.some.inj h).symm
    · split
      · exact fun h => h2 (Option.some.inj h).symm
      · exact fun h => by cases h

/-- Claim C13: the schema rules accept a first or middle name exactly when the
length of the trimmed input is between 2 and 12, and a last name exactly when
it is between 2 and 30; a missing value and a value that is empty after
trimming are rejected by the `required` rule. -/
theorem name_rules_accept_iff_length_in_bounds (s : String) :
    (validateFirstName (setTrim (.val s)) = none ↔
      2 ≤ jsLength (jsTrim s) ∧ jsLength (jsTrim s) ≤ 12) ∧
    (validateMiddleName (setTrim (.val s)) = none ↔
      2 ≤ jsLength (jsTrim s) ∧ jsLength (jsTrim s) ≤ 12) ∧
    (validateLastName (setTrim (.val s)) = none ↔
      2 ≤ jsLength (jsTrim s) ∧ jsLength (jsTrim s) ≤ 30) ∧
    (validateFirstName (setTrim (.val s)) = some "First name is required" ↔ jsTrim s = "") ∧
    (validateMiddleName (setTrim (.val s)) = some "Middle name is required" ↔ jsTrim s = "") ∧
    (validateLastName (setTrim (.val s)) = some "Last name is required" ↔ jsTrim s = "") ∧
    validateFirstName (setTrim .undefined) = some "First name is required" ∧
    validateMiddleName (setTrim .undefined) = some "Middle name is required" ∧
    validateLastName (setTrim .undefined) = some "Last name is required" ∧
    validateFirstName (setTrim .null) = some "First name is required" ∧
    validateMiddleName (setTrim .null) = some "Middle name is required" ∧
    validateLastName (setTrim .null) = some "Last name is required" := by
  refine ⟨validateName_some _ _ _ 12 _, validateName_some _ _ _ 12 _,
    validateName_some _ _ _ 30 _, ?_, ?_, ?_, rfl, rfl, rfl, rfl, rfl, rfl⟩
  · exact validateName_required _ _ _ 12 _ (by decide) (by decide)
  · exact validateName_required _ _ _ 12 _ (by decide) (by decide)
  · exact validateName_required _ _ _ 30 _ (by decide) (by decide)


/-! ## The errors list of a create -/

theorem mem_fieldError {field : String} {o : Option String} {e : FieldError} :
    e ∈ fieldError field o ↔ e.field = field ∧ o = some e.message := by
  cases o with
  | none => simp [fieldError]
  | some m =>
    cases e with
    | mk f msg =>
      simp only [fieldError, List.mem_singleton, FieldError.mk.injEq, Option.some.injEq]
      constructor
      · rintro ⟨h1, h2⟩
        exact ⟨h1, h2.symm⟩
      · rintro ⟨h1, h2⟩
        exact ⟨h1, h2.symm⟩

theorem fieldError_fields_sublist (field : String) (o : Option String) :
    ((fieldError field o).map fun e => e.field).Sublist [field] := by
  cases o with
  | none => simp [fieldError]
  | some m => simp [fieldError]

/-- The errors of a document: an entry for a path exactly when the validators
of that path fail, with the message of the first one that fails. -/
theorem mem_validateUser (today : JsDate) (u : User) (e : FieldError) :
    e ∈ validateUser today u ↔ pathError today u e.field = some e.message := by
  unfold validateUser pathError
  simp only [List.mem_append, mem_fieldError]
  by_cases h1 : e.field = "firstName"
  · simp [h1]
  by_cases h2 : e.field = "middleName"
  · simp [h2]
  by_cases h3 : e.field = "lastName"
  · simp [h3]
  by_cases h4 : e.field = "userName"
  · simp [h4]
  by_cases h5 : e.field = "email"
  · simp [h5]
  by_cases h6 : e.field = "dateOfBirth"
  · simp [h6]
  by_cases h7 : e.field = "gender"
  · simp [h7]
  simp [h1, h2, h3, h4, h5, h6, h7]

/-- No path has two entries in the errors of a document. -/
theorem validateUser_fields_nodup (today : JsDate) (u : User) :
    ((validateUser today u).map fun e => e.field).Nodup := by
  have hsub : ((validateUser today u).map fun e => e.field).Sublist
      (["firstName"] ++ ["middleName"] ++ ["lastName"] ++ ["userName"] ++ ["email"] ++
        ["dateOfBirth"] ++ ["gender"]) := by
    unfold validateUser
    simp only [List.map_append]
    exact (((((((fieldError_fields_sublist _ _).append (fieldError_fields_sublist _ _)).append
      (fieldError_fields_sublist _ _)).append (fieldError_fields_sublist _ _)).append
      (fieldError_fields_sublist _ _)).append (fieldError_fields_sublist _ _)).append
      (fieldError_fields_sublist _ _))
  exact hsub.nodup (by decide)

/-- Claim C14: a create whose input violates the rules of one or more fields is
answered with 400 and an errors list that has exactly one entry for every
violating field, and none for any other: the entry carries the name of the
field and the message of the rule it breaks. No user is stored and the counter
is not advanced, so a later create finds the user collection as it was. -/
theorem create_invalid_lists_every_violation (s : Store) (today : JsDate) (body : UserBody)
    (hbad : ¬validInput today body) :
    ∃ errors : List FieldError,
      (addNewUser today body s).2 =
        { status := 400, body := .failed "Validation failed for one or more fields" errors } ∧
      errors ≠ [] ∧
      (errors.map fun e => e.field).Nodup ∧
      (∀ field message, { field := field, message := message } ∈ errors ↔
        pathError today (newUser ⟨s.objectIds⟩ body) field = some message) ∧
      (addNewUser today body s).1.users = s.users ∧
      (addNewUser today body s).1.counter = s.counter ∧
      (addNewUser today body s).1.assigned = s.assigned := by
  have hv : validateUser today (newUser ⟨s.objectIds⟩ body) ≠ [] := hbad
  refine ⟨validateUser today (newUser ⟨s.objectIds⟩ body), ?_, hv,
    validateUser_fields_nodup _ _, fun field message => mem_validateUser _ _ ⟨field, message⟩, ?_⟩
  · unfold addNewUser User.create
    rcases insert_cases today (newUser ⟨s.objectIds⟩ body) { s with objectIds := s.objectIds + 1 }
      with ⟨_, he⟩ | ⟨hnil, _⟩ | ⟨hnil, _⟩
    · rw [he]
    · exact absurd hnil hv
    · exact absurd hnil hv
  · rw [addNewUser_fst]
    unfold User.create
    rcases insert_cases today (newUser ⟨s.objectIds⟩ body) { s with objectIds := s.objectIds + 1 }
      with ⟨_, he⟩ | ⟨hnil, _⟩ | ⟨hnil, _⟩
    · rw [he]
      exact ⟨rfl, rfl, rfl⟩
    · exact absurd hnil hv
    · exact absurd hnil hv
/-- Witness of C14: a first name of one character and a gender outside the
enumeration give two entries, and the store keeps its one user. -/
theorem create_invalid_lists_every_violation_witness :
    ¬validInput Sample.today Sample.twoViolations ∧
    (∃ errors : List FieldError,
      (addNewUser Sample.today Sample.twoViolations Sample.one).2 =
        { status := 400, body := .failed "Validation failed for one or more fields" errors } ∧
      errors ≠ [] ∧
      (errors.map fun e => e.field).Nodup ∧
      (∀ field message, { field := field, message := message } ∈ errors ↔
        pathError Sample.today (newUser ⟨Sample.one.objectIds⟩ Sample.twoViolations) field =
          some message) ∧
      (addNewUser Sample.today Sample.twoViolations Sample.one).1.users = Sample.one.users ∧
      (addNewUser Sample.today Sample.twoViolations Sample.one).1.counter = Sample.one.counter ∧
      (addNewUser Sample.today Sample.twoViolations Sample.one).1.assigned =
        Sample.one.assigned) ∧
    (addNewUser Sample.today Sample.twoViolations Sample.one).2 =
      { status := 400
        body := .failed "Validation failed for one or more fields"
          [{ field := "firstName", message := "First name must be at least 8 characters" },
           { field := "gender", message := "Gender must be either male or female" }] } :=
  ⟨by decide,
   create_invalid_lists_every_violation Sample.one Sample.today Sample.twoViolations (by decide),
   by decide⟩

/-! ## The terminal handlers of `index.js` -/

/-- Claim C15: any two errors that reach the error handler get the same
response, status 500 with the body `{success: false, message: "Internal Server
Error"}`, so nothing of the error shows in it; and a request that matches no
route gets status 404 with the message built from its method and URL. -/
theorem terminal_handlers (routes : HttpRequest → Option Outcome) (req : HttpRequest)
    (e1 e2 : ServerError) :
    errorHandler e1 = errorHandler e2 ∧
    errorHandler e1 = { status := 500, body := .message false "Internal Server Error" } ∧
    (routes req = some (.failed e1) →
      app routes req = { status := 500, body := .message false "Internal Server Error" }) ∧
    (routes req = none →
      app routes req =
        { status := 404
          body := .message false
            ("[NOT FOUND] " ++ req.method ++ " " ++ req.originalUrl ++
              " - This route does not exist") }) := by
  refine ⟨rfl, rfl, ?_, ?_⟩
  · intro h
    unfold app
    rw [h]
    rfl
  · intro h
    unfold app
    rw [h]
    rfl

/-- Witness of C15: the error of `GET /test-error` and a validation error get
the same 500, and `DELETE /nowhere?x=1` gets the 404 with its method and URL. -/
theorem terminal_handlers_witness :
    app Sample.routes { method := "GET", originalUrl := "/test-error" } =
      { status := 500, body := .message false "Internal Server Error" } ∧
    errorHandler (.other "Something went wrong") =
      errorHandler (.validationError [{ field := "email", message := "Email is required" }]) ∧
    app Sample.routes { method := "DELETE", originalUrl := "/nowhere?x=1" } =
      { status := 404
        body := .message false "[NOT FOUND] DELETE /nowhere?x=1 - This route does not exist" } :=
  have h := terminal_handlers Sample.routes { method := "GET", originalUrl := "/test-error" }
    (.other "Something went wrong")
    (.validationError [{ field := "email", message := "Email is required" }])
  have h2 := terminal_handlers Sample.routes { method := "DELETE", originalUrl := "/nowhere?x=1" }
    (.other "Something went wrong") (.other "Something went wrong")
  ⟨h.2.2.1 (by decide), h.1, h2.2.2.2 (by decide)⟩

/-! ## Ids of stored users -/

/-- In a store that satisfies the invariant the unique indexes can only report
the email. -/
theorem duplicateKeyOf_of_fresh (others : List User) (doc : User)
    (hoid : ∀ u ∈ others, u._id ≠ doc._id) (hid : ∀ u ∈ others, u.id ≠ doc.id) :
    duplicateKeyOf others doc = none ∨ duplicateKeyOf others doc = some "email" := by
  unfold duplicateKeyOf
  have h1 : (others.any fun u => u._id == doc._id) = false := by
    rw [List.any_eq_false]
    intro u hu
    simpa using hoid u hu
  have h2 : (others.any fun u => u.id == doc.id) = false := by
    rw [List.any_eq_false]
    intro u hu
    simpa using hid u hu
  simp only [h1, h2, Bool.false_eq_true, if_false]
  split
  · right; rfl
  · left; rfl

/-- A create in a store that satisfies the invariant can only fail on the
unique index of `email`. -/
theorem create_duplicateKey_email {s : Store} (h : Inv s) {today : JsDate} {body : UserBody}
    {field : String} (he : (User.create today body s).2 = .error (.duplicateKey field)) :
    field = "email" := by
  unfold User.create at he
  have hdoc := preSave_doc { s with objectIds := s.objectIds + 1 } (newUser ⟨s.objectIds⟩ body)
  have hkey := duplicateKeyOf_of_fresh s.users
    (preSave { s with objectIds := s.objectIds + 1 } (newUser ⟨s.objectIds⟩ body)).2
    (by
      intro u hu heq
      rw [hdoc] at heq
      have := h.oid_lt u hu
      rw [heq] at this
      exact Nat.lt_irrefl _ this)
    (by
      intro u hu
      rw [hdoc]
      exact h.fresh_id hu)
  rcases insert_cases today (newUser ⟨s.objectIds⟩ body) { s with objectIds := s.objectIds + 1 }
    with ⟨_, hi⟩ | ⟨_, f, hf, hi⟩ | ⟨_, _, hi⟩
  · rw [hi] at he
    cases he
  · rw [hi] at he
    simp only [Except.error.injEq, ServerError.duplicateKey.injEq] at he
    subst he
    rcases hkey with hk | hk
    · rw [hk] at hf
      cases hf
    · rw [hk] at hf
      exact (Option.some.inj hf).symm
  · rw [hi] at he
    cases he

/-- The save of an update in a store that satisfies the invariant can only
fail on the unique index of `email`. -/
theorem save_duplicateKey_email {s : Store} (h : Inv s) {today : JsDate} {doc : User}
    {field : String} (he : (User.save today doc s).2 = .error (.duplicateKey field)) :
    field = "email" := by
  have hdoc := preSave_doc s doc
  have hkey := duplicateKeyOf_of_fresh (s.users.filter fun u => u._id != doc._id)
    (preSave s doc).2
    (by
      intro u hu
      rw [hdoc]
      simp only [List.mem_filter, bne_iff_ne, ne_eq] at hu
      exact hu.2)
    (by
      intro u hu
      rw [hdoc]
      exact h.fresh_id (List.mem_of_mem_filter hu))
  rcases save_cases today doc s with ⟨_, hi⟩ | ⟨_, f, hf, hi⟩ | ⟨_, _, hi⟩
  · rw [hi] at he
    cases he
  · rw [hi] at he
    simp only [Except.error.injEq, ServerError.duplicateKey.injEq] at he
    subst he
    rcases hkey with hk | hk
    · rw [hk] at hf
      cases hf
    · rw [hk] at hf
      exact (Option.some.inj hf).symm
  · rw [hi] at he
    cases he

/-- Claim C17: in every store reached from the empty store by create, update
and delete requests, with the pre-save hook run by every save, the ids of the
stored users are pairwise distinct and each is at most the current `seq` of the
counter; hence no save, of a create or of an update, fails on the unique index
of `id`: the only duplicate key a save reports is `email`. -/
theorem stored_ids_distinct_and_bounded (s : Store) (hs : Reachable s) :
    s.users.Pairwise (fun a b => a.id ≠ b.id) ∧
    (∀ u ∈ s.users, ∃ n : Int, u.id = some n ∧ n ≤ s.seq) ∧
    (∀ (today : JsDate) (body : UserBody) (field : String),
      (User.create today body s).2 = .error (.duplicateKey field) → field = "email") ∧
    (∀ (today : JsDate) (userId : Int) (body : UserBody) (user : User) (field : String),
      User.findOne userId s = some user →
      (User.save today (applyBody user body) s).2 = .error (.duplicateKey field) →
        field = "email") ∧
    (∀ (today : JsDate) (body : UserBody),
      (addNewUser today body s).2 ≠
        { status := 400
          body := .failed "Validation failed for one or more fields"
            [{ field := "id", message := "id already exists" }] }) := by
  refine ⟨hs.inv.distinct.imp fun h => h.1, ?_, ?_, ?_, ?_⟩
  · intro u hu
    obtain ⟨n, h1, h2⟩ := hs.inv.id_assigned u hu
    exact ⟨n, h1, hs.inv.assigned_le n h2⟩
  · intro today body field he
    exact create_duplicateKey_email hs.inv he
  · intro today userId body user field _ he
    exact save_duplicateKey_email hs.inv he
  · intro today body hres
    unfold addNewUser at hres
    rcases hc : User.create today body s with ⟨s1, err | user⟩
    · cases err with
      | validationError errors =>
        rw [hc] at hres
        simp only [Response.mk.injEq, ResBody.failed.injEq, true_and] at hres
        have hv : validateUser today (newUser ⟨s.objectIds⟩ body) = errors := by
          unfold User.create at hc
          rcases insert_cases today (newUser ⟨s.objectIds⟩ body)
            { s with objectIds := s.objectIds + 1 } with ⟨_, hi⟩ | ⟨_, f, _, hi⟩ | ⟨_, _, hi⟩
          · rw [hi] at hc
            simp only [Prod.mk.injEq, Except.error.injEq, ServerError.validationError.injEq] at hc
            exact hc.2
          · rw [hi] at hc
            simp at hc
          · rw [hi] at hc
            simp at hc
        have hmem : ({ field := "id", message := "id already exists" } : FieldError) ∈
            validateUser today (newUser ⟨s.objectIds⟩ body) := by
          rw [hv, hres]
          simp
        rw [mem_validateUser] at hmem
        simp [pathError] at hmem
      | duplicateKey field =>
        have hf : field = "email" := create_duplicateKey_email hs.inv (by rw [hc])
        subst hf
        rw [hc] at hres
        simp at hres
      | other message =>
        rw [hc] at hres
        simp [errorHandler] at hres
    · rw [hc] at hres
      simp at hres

/-- Witness of C17: the store that holds Joe under id 2 after Ann was deleted. -/
theorem stored_ids_distinct_and_bounded_witness :
    Reachable Sample.two ∧ Sample.two.users.map (fun u => u.id) = [some 2] ∧
    Sample.two.seq = 2 ∧
    Sample.two.users.Pairwise (fun a b => a.id ≠ b.id) ∧
    (∀ u ∈ Sample.two.users, ∃ n : Int, u.id = some n ∧ n ≤ Sample.two.seq) :=
  have hr : Reachable Sample.two :=
    ⟨[(Sample.today, .create Sample.ann), (Sample.today, .delete 1),
      (Sample.today, .create Sample.joe)], by decide⟩
  have h := stored_ids_distinct_and_bounded Sample.two hr
  ⟨hr, by decide, by decide, h.1, h.2.1⟩


/-! ## The history of assigned ids -/

/-- A request leaves the history as it was or appends the next counter value. -/
theorem handle_assigned (today : JsDate) (r : Request) (s : Store) :
    (handle today r s).1.assigned = s.assigned ∨
    (handle today r s).1.assigned = s.assigned ++ [s.seq + 1] := by
  cases r with
  | create body =>
    simp only [handle, addNewUser_fst, User.create]
    have ha := preSave_assigned { s with objectIds := s.objectIds + 1 } (newUser ⟨s.objectIds⟩ body)
    rcases insert_cases today (newUser ⟨s.objectIds⟩ body) { s with objectIds := s.objectIds + 1 }
      with ⟨_, he⟩ | ⟨_, field, _, he⟩ | ⟨_, _, he⟩
    · rw [he]; left; rfl
    · rw [he]; right; exact ha
    · rw [he]; right; exact ha
  | update userId body =>
    simp only [handle, updateUser_fst]
    split
    · left; rfl
    · rename_i user _
      have ha := preSave_assigned s (applyBody user body)
      rcases save_cases today (applyBody user body) s with ⟨_, he⟩ | ⟨_, field, _, he⟩ | ⟨_, _, he⟩
      · rw [he]; left; rfl
      · rw [he]; right; exact ha
      · rw [he]; right; exact ha
  | delete userId =>
    left
    simp only [handle, deleteUser_fst]
    unfold User.findOneAndDelete
    split <;> rfl

theorem assigned_increasing_run (s : Store) (hinv : Inv s) (hs : s.assigned.Pairwise (· < ·))
    (rs : List (JsDate × Request)) : (run s rs).assigned.Pairwise (· < ·) := by
  induction rs generalizing s with
  | nil => exact hs
  | cons r rest ih =>
    refine ih _ (inv_handle hinv r.1 r.2) ?_
    rcases handle_assigned r.1 r.2 s with h | h
    · rw [h]; exact hs
    · rw [h, List.pairwise_append]
      refine ⟨hs, List.pairwise_singleton _ _, ?_⟩
      intro a ha b hb
      rw [List.mem_singleton] at hb
      subst hb
      have := hinv.assigned_le a ha
      omega

/-- The ids the pre-save hook hands out in a sequence of requests are strictly
increasing: no value is handed out twice, whether or not the save it was
drawn for succeeded. -/
theorem assigned_strictly_increasing (s : Store) (hs : Reachable s) :
    s.assigned.Pairwise (· < ·) := by
  obtain ⟨rs, rfl⟩ := hs
  exact assigned_increasing_run Store.empty inv_empty (by simp [Store.empty]) rs

/-- Witness of the history property: Ann is created and updated, and a create
with her email fails; the hook handed out 1, 2 and 3. -/
theorem assigned_strictly_increasing_witness :
    Reachable (run Store.empty
      [(Sample.today, .create Sample.ann), (Sample.today, .update 1 Sample.noKeys),
       (Sample.today, .create Sample.annUpper)]) ∧
    (run Store.empty
      [(Sample.today, .create Sample.ann), (Sample.today, .update 1 Sample.noKeys),
       (Sample.today, .create Sample.annUpper)]).assigned = [1, 2, 3] ∧
    (run Store.empty
      [(Sample.today, .create Sample.ann), (Sample.today, .update 1 Sample.noKeys),
       (Sample.today, .create Sample.annUpper)]).assigned.Pairwise (· < ·) :=
  have hr : Reachable (run Store.empty
      [(Sample.today, .create Sample.ann), (Sample.today, .update 1 Sample.noKeys),
       (Sample.today, .create Sample.annUpper)]) := ⟨_, rfl⟩
  ⟨hr, by decide, assigned_strictly_increasing _ hr⟩

end UsersApi
